import Mathlib

/-!
# gnb::rectangular and gnb::checked_rectangular

A shallow embedding of `rectangular.hpp` (the C++11 header and its C++03 twin,
which adds the constructor taking a `std::vector`).

* `size_type` is an unsigned integer of `W` bits.  Values are natural numbers
  and every arithmetic step the source performs on `size_type` is reduced
  modulo `2 ^ W` (`size_mul`, `size_add`).  `W` is a parameter of every
  operation that computes with `size_type`.
* `std::vector<T>` is a `List`.  Its `size()` is a `size_type` value, so a
  vector that exists has fewer than `2 ^ W` elements; theorems that need this
  say so with a hypothesis of the form `length < 2 ^ W`.
* A C++ reference into a vector is the number of the slot it designates.
  `std::vector::operator[]` does no check: asking for a slot outside the
  storage has no defined behaviour, which the embedding reports as
  `Fault.undefined` instead of inventing a value.
* A thrown `std::out_of_range` is `Fault.out_of_range` with the message given
  to the exception.
* `m_data.reserve(n)` asks for storage that the elements may never fill, so its
  failures are embedded (`vector_reserve`): `std::length_error` when `n` exceeds
  `max_size()`, `std::bad_alloc` when the allocator cannot provide the storage.
  What `max_size()` is and what the allocator can provide depend on the element
  type, the allocator and the platform; they are the parameter `vector_limits`.
  A `reserve` that succeeds changes no observable state.
* Operations whose result itself has to be stored (`vector(count, value)`,
  `resize`, `insert`) are taken to obtain their storage.
* Where the source has a mutable and a `const` overload with the same body,
  both are embedded, each from its own source text.
* An integer argument passed for a `size_type` parameter is converted modulo
  `2 ^ W` (`to_size_type`).
* An iterator is the position in `m_data` it points to.
* The class declares no copy or move operation, so the implicitly defined ones
  apply: member by member, where moving a `size_type` copies it and moving the
  vector leaves the source vector empty.
* An operation that changes an object passed by reference returns that object's
  state afterwards next to its result.
-/

namespace gnb

/-- The ways an operation can end without a result. -/
inductive Fault where
  /-- Source: `throw std::out_of_range(what_arg)` -/
  | out_of_range (what_arg : String)
  /-- The `std::length_error` of the standard library (its message is the library's). -/
  | length_error
  /-- The `std::bad_alloc` of the allocator. -/
  | bad_alloc
  /-- An access outside a vector's storage: the C++ standard defines no behaviour. -/
  | undefined
  deriving DecidableEq, Repr

deriving instance DecidableEq for Except

/-- Multiplication of two `size_type` values (`W` bits, unsigned, wraps). -/
def size_mul (W a b : Nat) : Nat := (a * b) % 2 ^ W

/-- Addition of two `size_type` values (`W` bits, unsigned, wraps). -/
def size_add (W a b : Nat) : Nat := (a + b) % 2 ^ W

/-- The conversion of an integer argument to `size_type` (`W` bits, unsigned):
the value modulo `2 ^ W`, as when `at(-1, 0)` is called. -/
def to_size_type (W : Nat) (n : Int) : Nat := (n % (2 : Int) ^ W).toNat

/-- Source: `std::vector::operator[](n)`: a reference to slot `n`, without any check. -/
def vector_index {α : Type} (v : List α) (n : Nat) : Except Fault Nat :=
  if n < v.length then .ok n else .error .undefined

/-- Reading through a reference into the vector `v`. -/
def load {α : Type} (v : List α) (ref : Nat) : Except Fault α :=
  match v[ref]? with
  | some a => .ok a
  | none => .error .undefined

/-- Writing `value` through a reference into the vector `v`. -/
def store {α : Type} (v : List α) (ref : Nat) (value : α) : List α :=
  v.set ref value

/-- What the vector type at hand can hold: its `max_size()` and the largest
number of elements its allocator can provide storage for. -/
structure vector_limits where
  max_size : Nat
  allocatable : Nat
  deriving DecidableEq, Repr

/-- Source: `std::vector::reserve(n)` on an empty vector: `std::length_error`
when `n > max_size()`, `std::bad_alloc` when the allocation fails, and no
observable effect otherwise. -/
def vector_reserve (lim : vector_limits) (n : Nat) : Except Fault Unit :=
  if n > lim.max_size then .error .length_error
  else if n > lim.allocatable then .error .bad_alloc
  else .ok ()

/-- Source: `std::vector::resize(count, value)`: the first `count` elements are
kept and, when `count` exceeds the length, copies of `value` are appended. -/
def vector_resize {α : Type} (v : List α) (count : Nat) (value : α) : List α :=
  v.take count ++ List.replicate (count - v.length) value

/-- Source: `std::fill(first, last, value)` on iterators into the vector `v`:
`value` is assigned through every iterator from `first` up to `last`, in order. -/
def std_fill {α : Type} (v : List α) (first last : Nat) (value : α) : List α :=
  (List.range (last - first)).foldl (fun d k => store d (first + k) value) v

/-- The private members of `class rectangular`. -/
structure rectangular (α : Type) where
  m_height : Nat
  m_width : Nat
  m_data : List α
  deriving DecidableEq, Repr

namespace rectangular

variable {α : Type}

/-- Source: `rectangular() : m_height{0}, m_width{0}, m_data{} {}` -/
def rectangular_default : rectangular α :=
  { m_height := 0, m_width := 0, m_data := [] }

/-- Source: `rectangular(size_type height, size_type width, value_type value)`:
`m_data(height * width, value)`. -/
def rectangular_fill (W height width : Nat) (value : α) : rectangular α :=
  { m_height := height, m_width := width,
    m_data := List.replicate (size_mul W height width) value }

/-- The same constructor with the default argument `value = value_type()`. -/
def rectangular_fill_default [Inhabited α] (W height width : Nat) : rectangular α :=
  rectangular_fill W height width default

/-- Source: `rectangular(size_type height, size_type width, InputIterator b, InputIterator e)`,
with `s` the elements of the range `[b, e)`, statement by statement:
`m_data.reserve(height * width);` may throw; `m_data.insert(begin(), b, e);`
on the empty `m_data` leaves it holding `s`; then the length check. -/
def rectangular_range (W : Nat) (lim : vector_limits) (height width : Nat) (s : List α) :
    Except Fault (rectangular α) :=
  match vector_reserve lim (size_mul W height width) with
  | .error e => .error e
  | .ok _ =>
    let m_data : List α := [] ++ s
    if m_data.length ≠ size_mul W height width then
      .error (.out_of_range "rectangular create")
    else
      .ok { m_height := height, m_width := width, m_data := m_data }

/-- Source: `rectangular(size_type height, size_type width, std::vector<value_type>& vec)`
of the C++03 header.  `vec` is passed by reference: the second component is
`vec` after the call.  `m_data.swap(vec)` exchanges the empty `m_data` with `vec`. -/
def rectangular_vector (W height width : Nat) (vec : List α) :
    Except Fault (rectangular α) × List α :=
  let m_data : List α := []
  if vec.length ≠ size_mul W height width then
    (.error (.out_of_range "rectangular vector<> create"), vec)
  else
    (.ok { m_height := height, m_width := width, m_data := vec }, m_data)

/-- Source: `size_type size() const { return m_data.size(); }` -/
def size (g : rectangular α) : Nat := g.m_data.length

/-- Source: `bool empty() const { return m_data.empty(); }` -/
def empty (g : rectangular α) : Bool := g.m_data.isEmpty

/-- Source: `size_type height() const { return m_height; }` -/
def height (g : rectangular α) : Nat := g.m_height

/-- Source: `size_type width() const { return m_width; }` -/
def width (g : rectangular α) : Nat := g.m_width

/-- Source: `reference at(size_type y, size_type x)`: the reference returned, or the
exception thrown. -/
def «at» (W : Nat) (g : rectangular α) (y x : Nat) : Except Fault Nat :=
  if y ≥ g.m_height then .error (.out_of_range "rectangular Y index")
  else if x ≥ g.m_width then .error (.out_of_range "rectangular X index")
  else vector_index g.m_data (size_add W (size_mul W y g.m_width) x)

/-- Source: `const_reference at(size_type y, size_type x) const`. -/
def at_const (W : Nat) (g : rectangular α) (y x : Nat) : Except Fault Nat :=
  if y ≥ g.m_height then .error (.out_of_range "rectangular Y index")
  else if x ≥ g.m_width then .error (.out_of_range "rectangular X index")
  else vector_index g.m_data (size_add W (size_mul W y g.m_width) x)

/-- The value of the expression `g.at(y, x)`. -/
def at_value (W : Nat) (g : rectangular α) (y x : Nat) : Except Fault α :=
  match g.at W y x with
  | .ok ref => load g.m_data ref
  | .error e => .error e

/-- The value of the expression `g.at(y, x)` on a `const` grid. -/
def at_const_value (W : Nat) (g : rectangular α) (y x : Nat) : Except Fault α :=
  match g.at_const W y x with
  | .ok ref => load g.m_data ref
  | .error e => .error e

/-- The statement `g.at(y, x) = value;`: the grid afterwards. -/
def at_assign (W : Nat) (g : rectangular α) (y x : Nat) (value : α) :
    Except Fault (rectangular α) :=
  match g.at W y x with
  | .ok ref => .ok { g with m_data := store g.m_data ref value }
  | .error e => .error e

/-- Source: `pointer operator[](size_type y) { return &m_data[y * m_width]; }`: the
pointer returned, as the slot of `m_data` it points to.  No bounds check. -/
def operator_index (W : Nat) (g : rectangular α) (y : Nat) : Except Fault Nat :=
  vector_index g.m_data (size_mul W y g.m_width)

/-- Source: `const_pointer operator[](size_type y) const`. -/
def operator_index_const (W : Nat) (g : rectangular α) (y : Nat) : Except Fault Nat :=
  vector_index g.m_data (size_mul W y g.m_width)

/-- The built-in subscript `p[x]` on a pointer `p` into `m_data`: a reference
to the slot `x` places after the one `p` points to.  No bounds check. -/
def pointer_index (g : rectangular α) (p x : Nat) : Except Fault Nat :=
  vector_index g.m_data (p + x)

/-- The reference designated by the expression `g[y][x]`. -/
def index_ref (W : Nat) (g : rectangular α) (y x : Nat) : Except Fault Nat :=
  match g.operator_index W y with
  | .ok p => g.pointer_index p x
  | .error e => .error e

/-- The value of the expression `g[y][x]`. -/
def index_value (W : Nat) (g : rectangular α) (y x : Nat) : Except Fault α :=
  match g.index_ref W y x with
  | .ok ref => load g.m_data ref
  | .error e => .error e

/-- The statement `g[y][x] = value;`: the grid afterwards. -/
def index_assign (W : Nat) (g : rectangular α) (y x : Nat) (value : α) :
    Except Fault (rectangular α) :=
  match g.index_ref W y x with
  | .ok ref => .ok { g with m_data := store g.m_data ref value }
  | .error e => .error e

/-- Source: `iterator begin() { return m_data.begin(); }` (and the `const`
forms `begin() const`, `cbegin() const`): an iterator is the position in
`m_data` it points to. -/
def begin (_g : rectangular α) : Nat := 0

/-- Source: `iterator end() { return m_data.end(); }` (and the `const` forms
`end() const`, `cend() const`). -/
def «end» (g : rectangular α) : Nat := g.m_data.length

/-- Reading `*it` for an iterator `it` of the grid. -/
def deref (g : rectangular α) (it : Nat) : Except Fault α := load g.m_data it

/-- The traversal `for (it = begin(); it != end(); ++it)`: what `*it` reads at
each step, in order. -/
def visited (g : rectangular α) : List (Except Fault α) :=
  (List.range (g.end - g.begin)).map (fun k => g.deref (g.begin + k))

/-- Source: `void resize(size_type new_height, size_type new_width, value_type value)`:
`m_data.resize(new_height * new_width, value); m_height = new_height;
m_width = new_width;`. -/
def resize (W : Nat) (g : rectangular α) (new_height new_width : Nat) (value : α) :
    rectangular α :=
  let g1 := { g with m_data := vector_resize g.m_data (size_mul W new_height new_width) value }
  let g2 := { g1 with m_height := new_height }
  { g2 with m_width := new_width }

/-- The same member with the default argument `value = value_type()`. -/
def resize_default [Inhabited α] (W : Nat) (g : rectangular α) (new_height new_width : Nat) :
    rectangular α :=
  g.resize W new_height new_width default

/-- Source: `void fill(const_reference value) { std::fill(begin(), end(), value); }` -/
def fill (g : rectangular α) (value : α) : rectangular α :=
  { g with m_data := std_fill g.m_data g.begin g.end value }

/-- Source: `void swap(rectangular& r)`, statement by statement:
`std::swap(m_height, r.m_height); std::swap(m_width, r.m_height);
std::swap(m_data, r.m_data);`.  The result is this grid and `r` afterwards. -/
def swap (g r : rectangular α) : rectangular α × rectangular α :=
  let g1 := { g with m_height := r.m_height }
  let r1 := { r with m_height := g.m_height }
  let g2 := { g1 with m_width := r1.m_height }
  let r2 := { r1 with m_height := g1.m_width }
  let g3 := { g2 with m_data := r2.m_data }
  let r3 := { r2 with m_data := g2.m_data }
  (g3, r3)

/-- The implicitly defined copy constructor (`// Default dtor/copy/assign/move OK`):
each member is copied.  The source is `const` and stays as it is. -/
def copy_construct (a : rectangular α) : rectangular α :=
  { m_height := a.m_height, m_width := a.m_width, m_data := a.m_data }

/-- The implicitly defined copy assignment `b = a`: each member of `a` is
assigned to the member of `b`.  The result is `b` afterwards. -/
def copy_assign (_b a : rectangular α) : rectangular α :=
  { m_height := a.m_height, m_width := a.m_width, m_data := a.m_data }

/-- The implicitly defined move constructor `b{std::move(a)}`: each member is
moved.  Moving a `size_type` copies it; moving the vector hands its storage
over and leaves the source vector empty.  The result is the new grid and `a`
afterwards. -/
def move_construct (a : rectangular α) : rectangular α × rectangular α :=
  ({ m_height := a.m_height, m_width := a.m_width, m_data := a.m_data },
   { a with m_data := [] })

/-- The implicitly defined move assignment `b = std::move(a)`: each member of
`a` is move-assigned to the member of `b`.  The result is `b` and `a`
afterwards. -/
def move_assign (_b a : rectangular α) : rectangular α × rectangular α :=
  ({ m_height := a.m_height, m_width := a.m_width, m_data := a.m_data },
   { a with m_data := [] })

/-- The generic `std::swap(x, y)`: `T tmp(std::move(x)); x = std::move(y);
y = std::move(tmp);`.  The result is `x` and `y` afterwards. -/
def std_swap (x y : rectangular α) : rectangular α × rectangular α :=
  let (tmp, x1) := move_construct x
  let (x2, y1) := move_assign x1 y
  let (y2, _) := move_assign y1 tmp
  (x2, y2)

end rectangular

/-- Source: `class checked_rectangular : public rectangular<T, Allocator>`: a
`rectangular` with no member of its own. -/
structure checked_rectangular (α : Type) extends rectangular α
  deriving DecidableEq, Repr

/-- Source: `class RowProxy`: the grid referred to (`Rect& m_rect`, here the grid's state
at the moment the proxy is used) and the row (`size_type m_y`). -/
structure RowProxy (α : Type) where
  m_rect : rectangular α
  m_y : Nat
  deriving DecidableEq, Repr

namespace RowProxy

variable {α : Type}

/-- Source: `RefType operator[](size_type x) { return m_rect.at(m_y, x); }` with
`Rect = Base`. -/
def operator_index (W : Nat) (p : RowProxy α) (x : Nat) : Except Fault Nat :=
  p.m_rect.at W p.m_y x

/-- Source: `RefType operator[](size_type x) { return m_rect.at(m_y, x); }` with
`Rect = const Base`, where `at` is the `const` overload. -/
def operator_index_const (W : Nat) (p : RowProxy α) (x : Nat) : Except Fault Nat :=
  p.m_rect.at_const W p.m_y x

end RowProxy

namespace checked_rectangular

variable {α : Type}

/-- Source: `checked_rectangular() : Base{} {}` -/
def checked_rectangular_default : checked_rectangular α :=
  { torectangular := rectangular.rectangular_default }

/-- Source: `checked_rectangular(size_type height, size_type width, value_type value)
: Base(height, width, value) {}` -/
def checked_rectangular_fill (W height width : Nat) (value : α) : checked_rectangular α :=
  { torectangular := rectangular.rectangular_fill W height width value }

/-- Source: `checked_rectangular(size_type height, size_type width, InputIterator b,
InputIterator e) : Base(height, width, b, e) {}` -/
def checked_rectangular_range (W : Nat) (lim : vector_limits) (height width : Nat)
    (s : List α) : Except Fault (checked_rectangular α) :=
  match rectangular.rectangular_range W lim height width s with
  | .ok base => .ok { torectangular := base }
  | .error e => .error e

/-- Source: `RowProxy<Base> operator[](size_type y) { return RowProxy<Base>(*this, y); }` -/
def operator_index (g : checked_rectangular α) (y : Nat) : RowProxy α :=
  { m_rect := g.torectangular, m_y := y }

/-- Source: `RowProxy<const Base> operator[](size_type y) const` -/
def operator_index_const (g : checked_rectangular α) (y : Nat) : RowProxy α :=
  { m_rect := g.torectangular, m_y := y }

/-- The reference designated by the expression `g[y][x]`, or the exception
thrown while evaluating it. -/
def index_ref (W : Nat) (g : checked_rectangular α) (y x : Nat) : Except Fault Nat :=
  (g.operator_index y).operator_index W x

/-- The same expression on a `const` grid. -/
def index_ref_const (W : Nat) (g : checked_rectangular α) (y x : Nat) : Except Fault Nat :=
  (g.operator_index_const y).operator_index_const W x

/-- The value of the expression `g[y][x]`. -/
def index_value (W : Nat) (g : checked_rectangular α) (y x : Nat) : Except Fault α :=
  match g.index_ref W y x with
  | .ok ref => load g.m_data ref
  | .error e => .error e

/-- The value of the expression `g[y][x]` on a `const` grid. -/
def index_const_value (W : Nat) (g : checked_rectangular α) (y x : Nat) : Except Fault α :=
  match g.index_ref_const W y x with
  | .ok ref => load g.m_data ref
  | .error e => .error e

end checked_rectangular

/-! ## Arithmetic of the row-major index -/

theorem size_mul_of_lt {W a b : Nat} (h : a * b < 2 ^ W) : size_mul W a b = a * b := by
  unfold size_mul
  exact Nat.mod_eq_of_lt h

theorem row_major_lt {h w r c : Nat} (hr : r < h) (hc : c < w) : r * w + c < h * w := by
  have h1 : (r + 1) * w ≤ h * w := Nat.mul_le_mul_right w hr
  have h2 : (r + 1) * w = r * w + w := by ring
  omega

theorem linear_index_of_lt {W r w c : Nat} (hlt : r * w + c < 2 ^ W) :
    size_add W (size_mul W r w) c = r * w + c := by
  have h1 : r * w < 2 ^ W := by omega
  unfold size_add
  rw [size_mul_of_lt h1]
  exact Nat.mod_eq_of_lt hlt

theorem row_major_inj {w r c r' c' : Nat} (hc : c < w) (hc' : c' < w)
    (h : r * w + c = r' * w + c') : r = r' ∧ c = c' := by
  have hw : 0 < w := by omega
  have e1 : (c + r * w) / w = r := by
    rw [Nat.add_mul_div_right c r hw, Nat.div_eq_of_lt hc]
    omega
  have e2 : (c' + r' * w) / w = r' := by
    rw [Nat.add_mul_div_right c' r' hw, Nat.div_eq_of_lt hc']
    omega
  have e3 : c + r * w = c' + r' * w := by omega
  have hrr : r = r' := by
    rw [← e1, ← e2, e3]
  subst hrr
  exact ⟨rfl, by omega⟩

theorem to_size_type_neg {W k : Nat} (h1 : 1 ≤ k) (h2 : k ≤ 2 ^ W) :
    to_size_type W (-(k : Int)) = 2 ^ W - k := by
  unfold to_size_type
  have hm : ((2 : Int) ^ W) = ((2 ^ W : Nat) : Int) := by push_cast; rfl
  have h3 : (-(k : Int)) % (2 : Int) ^ W = (((2 ^ W - k : Nat)) : Int) := by
    have e1 : (-(k : Int)) % (2 : Int) ^ W = (-(k : Int) + 1 * (2 : Int) ^ W) % (2 : Int) ^ W := by
      rw [Int.add_mul_emod_self]
    rw [e1, hm]
    have e2 : (-(k : Int) + 1 * ((2 ^ W : Nat) : Int)) = (((2 ^ W - k : Nat)) : Int) := by
      omega
    rw [e2]
    apply Int.emod_eq_of_lt
    · omega
    · omega
  rw [h3]
  exact Int.toNat_ofNat _

/-! ## Reading and writing through references -/

theorem load_of_lt {α : Type} (v : List α) {i : Nat} (h : i < v.length) :
    load v i = .ok (v.get ⟨i, h⟩) := by
  unfold load
  rw [List.getElem?_eq_getElem h]
  rfl

theorem load_store_same {α : Type} (v : List α) {i : Nat} (h : i < v.length) (x : α) :
    load (store v i x) i = .ok x := by
  unfold load store
  rw [List.getElem?_set_self h]

theorem load_store_other {α : Type} (v : List α) {i j : Nat} (h : i ≠ j) (x : α) :
    load (store v i x) j = load v j := by
  unfold load store
  rw [List.getElem?_set_ne h]

/-! ## `std::fill` and `std::vector::resize` -/

theorem std_fill_upto {α : Type} (v : List α) (x : α) (n : Nat) (hn : n ≤ v.length) :
    std_fill v 0 n x = List.replicate n x ++ v.drop n := by
  unfold std_fill
  induction n with
  | zero => simp
  | succ n ih =>
    have ih2 := ih (by omega)
    simp only [Nat.sub_zero] at ih2 ⊢
    rw [List.range_succ, List.foldl_append, ih2]
    simp only [List.foldl_cons, List.foldl_nil, store, Nat.zero_add]
    apply List.ext_getElem?
    intro i
    rw [List.getElem?_set]
    by_cases h1 : n = i
    · subst h1
      simp [List.getElem?_append, List.getElem?_replicate]
      omega
    · simp only [h1, if_false]
      simp only [List.getElem?_append, List.getElem?_replicate, List.length_replicate,
        List.getElem?_drop]
      by_cases h2 : i < n
      · have h3 : i < n + 1 := by omega
        simp [h2, h3]
      · have h3 : ¬ i < n + 1 := by omega
        simp [h2, h3]
        congr 1
        omega

theorem std_fill_all {α : Type} (v : List α) (x : α) :
    std_fill v 0 v.length x = List.replicate v.length x := by
  rw [std_fill_upto v x v.length (Nat.le_refl _)]
  simp

theorem vector_resize_length {α : Type} (v : List α) (n : Nat) (x : α) :
    (vector_resize v n x).length = n := by
  unfold vector_resize
  simp
  omega

theorem vector_resize_getElem?_old {α : Type} (v : List α) (n : Nat) (x : α) {k : Nat}
    (hk : k < min v.length n) : (vector_resize v n x)[k]? = v[k]? := by
  unfold vector_resize
  have h1 : k < (v.take n).length := by simp; omega
  rw [List.getElem?_append_left h1, List.getElem?_take]
  simp
  omega

theorem vector_resize_getElem?_new {α : Type} (v : List α) (n : Nat) (x : α) {k : Nat}
    (h1 : v.length ≤ k) (h2 : k < n) : (vector_resize v n x)[k]? = some x := by
  unfold vector_resize
  have h3 : (v.take n).length = v.length := by simp; omega
  rw [List.getElem?_append_right (by omega), h3, List.getElem?_replicate]
  simp
  omega

theorem vector_reserve_ok_iff (lim : vector_limits) (n : Nat) :
    vector_reserve lim n = .ok () ↔ n ≤ lim.max_size ∧ n ≤ lim.allocatable := by
  unfold vector_reserve
  by_cases h1 : n > lim.max_size
  · simp [h1]
  · by_cases h2 : n > lim.allocatable
    · simp [h1, h2]
    · simp [h1, h2]
      omega

theorem store_length {α : Type} (v : List α) (i : Nat) (x : α) :
    (store v i x).length = v.length := by
  unfold store
  exact List.length_set _ _ _

namespace rectangular

variable {α : Type}

theorem fill_data (g : rectangular α) (v : α) :
    (g.fill v).m_data = List.replicate g.m_data.length v := by
  unfold rectangular.fill rectangular.begin rectangular.end
  exact std_fill_all g.m_data v

theorem resize_size (W : Nat) (g : rectangular α) (nh nw : Nat) (v : α) :
    (g.resize W nh nw v).m_data.length = size_mul W nh nw := by
  unfold rectangular.resize
  exact vector_resize_length _ _ _

theorem at_assign_data {W : Nat} {g g2 : rectangular α} {r c : Nat} {v : α}
    (h : g.at_assign W r c v = .ok g2) :
    g2.m_height = g.m_height ∧ g2.m_width = g.m_width ∧
      g2.m_data.length = g.m_data.length := by
  unfold rectangular.at_assign at h
  cases hat : g.at W r c with
  | error e => rw [hat] at h; cases h
  | ok ref =>
    rw [hat] at h
    cases h
    exact ⟨rfl, rfl, store_length _ _ _⟩

theorem index_assign_data {W : Nat} {g g2 : rectangular α} {r c : Nat} {v : α}
    (h : g.index_assign W r c v = .ok g2) :
    g2.m_height = g.m_height ∧ g2.m_width = g.m_width ∧
      g2.m_data.length = g.m_data.length := by
  unfold rectangular.index_assign at h
  cases hat : g.index_ref W r c with
  | error e => rw [hat] at h; cases h
  | ok ref =>
    rw [hat] at h
    cases h
    exact ⟨rfl, rfl, store_length _ _ _⟩

theorem range_after_reserve {W : Nat} {lim : vector_limits} {h w : Nat} (s : List α)
    (hres : vector_reserve lim (size_mul W h w) = .ok ()) :
    rectangular_range W lim h w s =
      if s.length ≠ size_mul W h w then .error (.out_of_range "rectangular create")
      else .ok { m_height := h, m_width := w, m_data := s } := by
  unfold rectangular_range
  rw [hres]
  simp

theorem range_reserve_failed {W : Nat} {lim : vector_limits} {h w : Nat} (s : List α)
    {e : Fault} (hres : vector_reserve lim (size_mul W h w) = .error e) :
    rectangular_range W lim h w s = .error e := by
  unfold rectangular_range
  rw [hres]

theorem range_ok_data {W : Nat} {lim : vector_limits} {h w : Nat} {s : List α}
    {g : rectangular α} (hg : rectangular_range W lim h w s = .ok g) :
    g = { m_height := h, m_width := w, m_data := s } ∧ s.length = size_mul W h w := by
  cases hres : vector_reserve lim (size_mul W h w) with
  | error e =>
    rw [range_reserve_failed s hres] at hg
    cases hg
  | ok u =>
    rw [range_after_reserve s hres] at hg
    by_cases hl : s.length ≠ size_mul W h w
    · rw [if_pos hl] at hg
      cases hg
    · rw [if_neg hl] at hg
      cases hg
      exact ⟨rfl, by simpa using hl⟩

theorem vector_ok_data {W h w : Nat} {vec : List α} {g : rectangular α}
    (hg : (rectangular_vector W h w vec).1 = .ok g) :
    g = { m_height := h, m_width := w, m_data := vec } ∧ vec.length = size_mul W h w := by
  unfold rectangular_vector at hg
  by_cases hl : vec.length ≠ size_mul W h w
  · simp only [if_pos hl] at hg
    cases hg
  · simp only [if_neg hl] at hg
    cases hg
    exact ⟨rfl, by simpa using hl⟩

theorem at_const_eq_at (W : Nat) (g : rectangular α) (y x : Nat) :
    g.at_const W y x = g.at W y x := rfl

theorem at_const_value_eq (W : Nat) (g : rectangular α) (y x : Nat) :
    g.at_const_value W y x = g.at_value W y x := rfl

theorem at_of_lt {W : Nat} {g : rectangular α} {r c : Nat}
    (hr : r < g.m_height) (hc : c < g.m_width)
    (hslot : r * g.m_width + c < g.m_data.length) (hrep : g.m_data.length < 2 ^ W) :
    g.at W r c = .ok (r * g.m_width + c) := by
  have hidx : size_add W (size_mul W r g.m_width) c = r * g.m_width + c :=
    linear_index_of_lt (by omega)
  unfold rectangular.at vector_index
  rw [hidx, if_neg (by omega), if_neg (by omega), if_pos hslot]

theorem at_of_invariant {W : Nat} {g : rectangular α} {r c : Nat}
    (hinv : g.m_data.length = g.m_height * g.m_width) (hrep : g.m_data.length < 2 ^ W)
    (hr : r < g.m_height) (hc : c < g.m_width) :
    g.at W r c = .ok (r * g.m_width + c) :=
  at_of_lt hr hc (by rw [hinv]; exact row_major_lt hr hc) hrep

theorem slot_of_invariant {g : rectangular α} {r c : Nat}
    (hinv : g.m_data.length = g.m_height * g.m_width)
    (hr : r < g.m_height) (hc : c < g.m_width) :
    r * g.m_width + c < g.m_data.length := by
  rw [hinv]
  exact row_major_lt hr hc

theorem at_value_of_invariant {W : Nat} {g : rectangular α} {r c : Nat}
    (hinv : g.m_data.length = g.m_height * g.m_width) (hrep : g.m_data.length < 2 ^ W)
    (hr : r < g.m_height) (hc : c < g.m_width) :
    ∃ a, g.m_data[r * g.m_width + c]? = some a ∧ g.at_value W r c = .ok a := by
  have hslot : r * g.m_width + c < g.m_data.length := slot_of_invariant hinv hr hc
  refine ⟨g.m_data.get ⟨r * g.m_width + c, hslot⟩, ?_, ?_⟩
  · rw [List.getElem?_eq_getElem hslot]
    rfl
  · unfold rectangular.at_value
    rw [at_of_invariant hinv hrep hr hc]
    exact load_of_lt g.m_data hslot

end rectangular

/-! ## The dimensioned constructor -/

/-- C1, as amended: for every height `h` and width `w` whose product is below
`2 ^ W` (so that `height * width` does not wrap in `size_type`) and every fill
value `v`, `rectangular(h, w, v)` yields a grid with `height() == h`,
`width() == w`, `size() == h * w` and `at(r, c) == v` for every `r < h`,
`c < w`, through either overload of `at`; without a fill value the same holds
with the element type's default value. -/
theorem rectangular_fill_spec {α : Type} [Inhabited α] (W h w : Nat) (v : α)
    (hov : h * w < 2 ^ W) :
    (rectangular.rectangular_fill W h w v).height = h ∧
    (rectangular.rectangular_fill W h w v).width = w ∧
    (rectangular.rectangular_fill W h w v).size = h * w ∧
    (∀ r c, r < h → c < w →
      (rectangular.rectangular_fill W h w v).at_value W r c = .ok v ∧
      (rectangular.rectangular_fill W h w v).at_const_value W r c = .ok v) ∧
    (rectangular.rectangular_fill_default W h w : rectangular α).height = h ∧
    (rectangular.rectangular_fill_default W h w : rectangular α).width = w ∧
    (rectangular.rectangular_fill_default W h w : rectangular α).size = h * w ∧
    (∀ r c, r < h → c < w →
      (rectangular.rectangular_fill_default W h w : rectangular α).at_value W r c
        = .ok default) := by
  have key : ∀ (x : α) (r c : Nat), r < h → c < w →
      (rectangular.rectangular_fill W h w x).at_value W r c = .ok x := by
    intro x r c hr hc
    have hlen : (rectangular.rectangular_fill W h w x).m_data.length = h * w := by
      simp [rectangular.rectangular_fill, size_mul_of_lt hov]
    have hat : (rectangular.rectangular_fill W h w x).at W r c = .ok (r * w + c) :=
      rectangular.at_of_invariant (g := rectangular.rectangular_fill W h w x)
        hlen (by rw [hlen]; exact hov) hr hc
    have hslot : r * w + c < h * w := row_major_lt hr hc
    unfold rectangular.at_value
    rw [hat]
    simp only [rectangular.rectangular_fill, size_mul_of_lt hov, load]
    rw [List.getElem?_replicate, if_pos hslot]
  have hsize : ∀ x : α, (rectangular.rectangular_fill W h w x).size = h * w := by
    intro x
    simp [rectangular.rectangular_fill, rectangular.size, size_mul_of_lt hov]
  refine ⟨rfl, rfl, hsize v, ?_, rfl, rfl, hsize default, ?_⟩
  · intro r c hr hc
    exact ⟨key v r c hr hc, key v r c hr hc⟩
  · intro r c hr hc
    exact key default r c hr hc

/-- C1, witness: a 2 x 3 grid of sevens with a 64-bit `size_type`. -/
theorem rectangular_fill_spec_witness :
    2 * 3 < 2 ^ 64 ∧
    ((rectangular.rectangular_fill 64 2 3 (7 : Nat)).height = 2 ∧
     (rectangular.rectangular_fill 64 2 3 (7 : Nat)).width = 3 ∧
     (rectangular.rectangular_fill 64 2 3 (7 : Nat)).size = 2 * 3 ∧
     (∀ r c, r < 2 → c < 3 →
       (rectangular.rectangular_fill 64 2 3 (7 : Nat)).at_value 64 r c = .ok 7 ∧
       (rectangular.rectangular_fill 64 2 3 (7 : Nat)).at_const_value 64 r c = .ok 7) ∧
     (rectangular.rectangular_fill_default 64 2 3 : rectangular Nat).height = 2 ∧
     (rectangular.rectangular_fill_default 64 2 3 : rectangular Nat).width = 3 ∧
     (rectangular.rectangular_fill_default 64 2 3 : rectangular Nat).size = 2 * 3 ∧
     (∀ r c, r < 2 → c < 3 →
       (rectangular.rectangular_fill_default 64 2 3 : rectangular Nat).at_value 64 r c
         = .ok default)) :=
  ⟨by decide, rectangular_fill_spec 64 2 3 7 (by decide)⟩

/-- C1, counterexample: with a 64-bit `size_type`, `rectangular(2^32, 2^32, 7)`
has `height() == 2^32` and `width() == 2^32` but `size() == 0`, which is not
`2^32 * 2^32`, and `at(0, 0)`, although `0 < 2^32` in both coordinates, passes
both checks and reaches outside the (empty) storage instead of yielding 7. -/
theorem rectangular_fill_overflow :
    (rectangular.rectangular_fill 64 (2 ^ 32) (2 ^ 32) (7 : Nat)).height = 2 ^ 32 ∧
    (rectangular.rectangular_fill 64 (2 ^ 32) (2 ^ 32) (7 : Nat)).width = 2 ^ 32 ∧
    (rectangular.rectangular_fill 64 (2 ^ 32) (2 ^ 32) (7 : Nat)).size = 0 ∧
    (rectangular.rectangular_fill 64 (2 ^ 32) (2 ^ 32) (7 : Nat)).size ≠ 2 ^ 32 * 2 ^ 32 ∧
    0 < 2 ^ 32 ∧
    (rectangular.rectangular_fill 64 (2 ^ 32) (2 ^ 32) (7 : Nat)).at_value 64 0 0
      = .error .undefined ∧
    (rectangular.rectangular_fill 64 (2 ^ 32) (2 ^ 32) (7 : Nat)).at_value 64 0 0 ≠ .ok 7 := by
  decide

/-! ## Checked access: `at` -/

/-- C2, as amended: for every grid and every `(r, c)`, `at(r, c)` throws
`std::out_of_range` if and only if `r >= height()` or `c >= width()`; it
returns a reference if and only if `r < height()`, `c < width()` and the
linear index `r * width() + c`, as computed in `size_type`, is less than the
length of the backing vector; the `const` overload behaves identically. -/
theorem at_outcome {α : Type} (W : Nat) (g : rectangular α) (r c : Nat) :
    ((∃ msg, g.at W r c = .error (.out_of_range msg)) ↔ (r ≥ g.height ∨ c ≥ g.width)) ∧
    ((∃ ref, g.at W r c = .ok ref) ↔
      (r < g.height ∧ c < g.width ∧ size_add W (size_mul W r g.width) c < g.size)) ∧
    ((∃ msg, g.at_const W r c = .error (.out_of_range msg)) ↔
      (r ≥ g.height ∨ c ≥ g.width)) ∧
    ((∃ ref, g.at_const W r c = .ok ref) ↔
      (r < g.height ∧ c < g.width ∧ size_add W (size_mul W r g.width) c < g.size)) := by
  have main : ((∃ msg, g.at W r c = .error (.out_of_range msg)) ↔
        (r ≥ g.height ∨ c ≥ g.width)) ∧
      ((∃ ref, g.at W r c = .ok ref) ↔
        (r < g.height ∧ c < g.width ∧ size_add W (size_mul W r g.width) c < g.size)) := by
    unfold rectangular.at vector_index rectangular.height rectangular.width rectangular.size
    by_cases hr : r ≥ g.m_height
    · simp [hr]
    · by_cases hc : c ≥ g.m_width
      · simp [hr, hc]
      · by_cases hs : size_add W (size_mul W r g.m_width) c < g.m_data.length
        · simp [hr, hc, hs]
          omega
        · simp [hr, hc, hs]
  exact ⟨main.1, main.2, main.1, main.2⟩

/-- C2, counterexample: the grid built by `rectangular(2^32, 2^32, 7)` with a
64-bit `size_type` has `0 < height()` and `0 < width()`, yet `at(0, 0)` does
not succeed: no exception is thrown and the element access falls outside the
empty backing vector. -/
theorem at_in_bounds_not_ok :
    0 < (rectangular.rectangular_fill 64 (2 ^ 32) (2 ^ 32) (7 : Nat)).height ∧
    0 < (rectangular.rectangular_fill 64 (2 ^ 32) (2 ^ 32) (7 : Nat)).width ∧
    (rectangular.rectangular_fill 64 (2 ^ 32) (2 ^ 32) (7 : Nat)).at 64 0 0
      = .error .undefined ∧
    (rectangular.rectangular_fill 64 (2 ^ 32) (2 ^ 32) (7 : Nat)).at_const 64 0 0
      = .error .undefined := by
  decide

/-- C3: for every grid whose storage length equals `height * width` (a length
that is a `size_type` value) and every `r < height()`, `c < width()`,
`at(r, c)` refers to slot `r * width() + c` of the backing vector and reads
the element stored there, through either overload. -/
theorem at_row_major {α : Type} (W : Nat) (g : rectangular α) (r c : Nat)
    (hinv : g.size = g.height * g.width) (hrep : g.size < 2 ^ W)
    (hr : r < g.height) (hc : c < g.width) :
    g.at W r c = .ok (r * g.width + c) ∧
    g.at_const W r c = .ok (r * g.width + c) ∧
    ∃ a, g.m_data[r * g.width + c]? = some a ∧
      g.at_value W r c = .ok a ∧ g.at_const_value W r c = .ok a := by
  have hat : g.at W r c = .ok (r * g.m_width + c) :=
    rectangular.at_of_invariant hinv hrep hr hc
  obtain ⟨a, ha, hval⟩ := rectangular.at_value_of_invariant (W := W) hinv hrep hr hc
  exact ⟨hat, hat, a, ha, hval, hval⟩

/-- C3, witness: the 2 x 3 grid holding 10..15, read at (1, 1). -/
theorem at_row_major_witness :
    ((⟨2, 3, [10, 11, 12, 13, 14, 15]⟩ : rectangular Nat).size
      = (⟨2, 3, [10, 11, 12, 13, 14, 15]⟩ : rectangular Nat).height
        * (⟨2, 3, [10, 11, 12, 13, 14, 15]⟩ : rectangular Nat).width ∧
     (⟨2, 3, [10, 11, 12, 13, 14, 15]⟩ : rectangular Nat).size < 2 ^ 64 ∧
     1 < (⟨2, 3, [10, 11, 12, 13, 14, 15]⟩ : rectangular Nat).height ∧
     1 < (⟨2, 3, [10, 11, 12, 13, 14, 15]⟩ : rectangular Nat).width) ∧
    ((⟨2, 3, [10, 11, 12, 13, 14, 15]⟩ : rectangular Nat).at 64 1 1
      = .ok (1 * (⟨2, 3, [10, 11, 12, 13, 14, 15]⟩ : rectangular Nat).width + 1) ∧
     (⟨2, 3, [10, 11, 12, 13, 14, 15]⟩ : rectangular Nat).at_const 64 1 1
      = .ok (1 * (⟨2, 3, [10, 11, 12, 13, 14, 15]⟩ : rectangular Nat).width + 1) ∧
     ∃ a, (⟨2, 3, [10, 11, 12, 13, 14, 15]⟩ : rectangular Nat).m_data[
          1 * (⟨2, 3, [10, 11, 12, 13, 14, 15]⟩ : rectangular Nat).width + 1]? = some a ∧
       (⟨2, 3, [10, 11, 12, 13, 14, 15]⟩ : rectangular Nat).at_value 64 1 1 = .ok a ∧
       (⟨2, 3, [10, 11, 12, 13, 14, 15]⟩ : rectangular Nat).at_const_value 64 1 1 = .ok a) :=
  ⟨⟨by decide, by decide, by decide, by decide⟩,
    at_row_major 64 ⟨2, 3, [10, 11, 12, 13, 14, 15]⟩ 1 1
      (by decide) (by decide) (by decide) (by decide)⟩

/-- C4: for every grid whose storage length equals `height * width` (a length
that is a `size_type` value), every in-bounds `(r, c)` and every value `v`,
the assignment `at(r, c) = v` succeeds; afterwards `at(r, c) == v`, `at(r', c')`
is what it was for every other in-bounds `(r', c')`, and `height()`, `width()`
and `size()` are what they were. -/
theorem at_assign_frame {α : Type} (W : Nat) (g : rectangular α) (r c : Nat) (v : α)
    (hinv : g.size = g.height * g.width) (hrep : g.size < 2 ^ W)
    (hr : r < g.height) (hc : c < g.width) :
    ∃ g2, g.at_assign W r c v = .ok g2 ∧
      g2.at_value W r c = .ok v ∧
      (∀ r2 c2, r2 < g.height → c2 < g.width → (r2, c2) ≠ (r, c) →
        g2.at_value W r2 c2 = g.at_value W r2 c2) ∧
      g2.height = g.height ∧ g2.width = g.width ∧ g2.size = g.size := by
  have hat : g.at W r c = .ok (r * g.m_width + c) :=
    rectangular.at_of_invariant hinv hrep hr hc
  have hslot : r * g.m_width + c < g.m_data.length := by
    have h1 : r * g.m_width + c < g.m_height * g.m_width := row_major_lt hr hc
    have h2 : g.m_data.length = g.m_height * g.m_width := hinv
    omega
  have hlen : (store g.m_data (r * g.m_width + c) v).length = g.m_data.length := by
    unfold store
    exact List.length_set _ _ _
  have hinv2 : (store g.m_data (r * g.m_width + c) v).length = g.m_height * g.m_width := by
    rw [hlen]; exact hinv
  have hrep2 : (store g.m_data (r * g.m_width + c) v).length < 2 ^ W := by
    rw [hlen]; exact hrep
  refine ⟨{ g with m_data := store g.m_data (r * g.m_width + c) v }, ?_, ?_, ?_, rfl, rfl, ?_⟩
  · unfold rectangular.at_assign
    rw [hat]
  · unfold rectangular.at_value
    rw [rectangular.at_of_invariant
      (g := { g with m_data := store g.m_data (r * g.m_width + c) v }) hinv2 hrep2 hr hc]
    exact load_store_same g.m_data hslot v
  · intro r2 c2 hr2 hc2 hne
    have hslots : r * g.m_width + c ≠ r2 * g.m_width + c2 := by
      intro heq
      have := row_major_inj hc hc2 heq
      exact hne (by rw [this.1, this.2])
    unfold rectangular.at_value
    rw [rectangular.at_of_invariant
      (g := { g with m_data := store g.m_data (r * g.m_width + c) v }) hinv2 hrep2 hr2 hc2,
      rectangular.at_of_invariant hinv hrep hr2 hc2]
    exact load_store_other g.m_data hslots v
  · unfold rectangular.size
    exact hlen

/-- C4, witness: `at(1, 1) = 3` on the 2 x 3 grid of zeros. -/
theorem at_assign_frame_witness :
    ((rectangular.rectangular_fill 64 2 3 (0 : Nat)).size
      = (rectangular.rectangular_fill 64 2 3 (0 : Nat)).height
        * (rectangular.rectangular_fill 64 2 3 (0 : Nat)).width ∧
     (rectangular.rectangular_fill 64 2 3 (0 : Nat)).size < 2 ^ 64 ∧
     1 < (rectangular.rectangular_fill 64 2 3 (0 : Nat)).height ∧
     1 < (rectangular.rectangular_fill 64 2 3 (0 : Nat)).width) ∧
    ∃ g2, (rectangular.rectangular_fill 64 2 3 (0 : Nat)).at_assign 64 1 1 3 = .ok g2 ∧
      g2.at_value 64 1 1 = .ok 3 ∧
      (∀ r2 c2, r2 < (rectangular.rectangular_fill 64 2 3 (0 : Nat)).height →
        c2 < (rectangular.rectangular_fill 64 2 3 (0 : Nat)).width → (r2, c2) ≠ (1, 1) →
        g2.at_value 64 r2 c2
          = (rectangular.rectangular_fill 64 2 3 (0 : Nat)).at_value 64 r2 c2) ∧
      g2.height = (rectangular.rectangular_fill 64 2 3 (0 : Nat)).height ∧
      g2.width = (rectangular.rectangular_fill 64 2 3 (0 : Nat)).width ∧
      g2.size = (rectangular.rectangular_fill 64 2 3 (0 : Nat)).size :=
  ⟨⟨by decide, by decide, by decide, by decide⟩,
    at_assign_frame 64 (rectangular.rectangular_fill 64 2 3 (0 : Nat)) 1 1 3
      (by decide) (by decide) (by decide) (by decide)⟩

/-! ## Double indexing -/

/-- C5: for every `checked_rectangular` grid and every `(r, c)`, the two-step
index `grid[r][c]` is `grid.at(r, c)`: the same reference and the same value
when the access succeeds and the same failure otherwise, for the mutable and
the `const` form.  The first step `grid[r]` only builds the proxy holding the
grid and `r`, whatever `r` is; when `r >= height()` the exception for the row
comes from applying the column index. -/
theorem checked_index_eq_at {α : Type} (W : Nat) (g : checked_rectangular α) (r c : Nat) :
    g.index_ref W r c = g.torectangular.at W r c ∧
    g.index_ref_const W r c = g.torectangular.at_const W r c ∧
    g.index_value W r c = g.torectangular.at_value W r c ∧
    g.index_const_value W r c = g.torectangular.at_const_value W r c ∧
    g.operator_index r = { m_rect := g.torectangular, m_y := r } ∧
    g.operator_index_const r = { m_rect := g.torectangular, m_y := r } ∧
    (r ≥ g.height →
      (g.operator_index r).operator_index W c
        = .error (.out_of_range "rectangular Y index") ∧
      (g.operator_index_const r).operator_index_const W c
        = .error (.out_of_range "rectangular Y index")) := by
  refine ⟨rfl, rfl, rfl, rfl, rfl, rfl, ?_⟩
  intro hr
  have hr2 : r ≥ g.m_height := hr
  simp [checked_rectangular.operator_index, checked_rectangular.operator_index_const,
    RowProxy.operator_index, RowProxy.operator_index_const, rectangular.at,
    rectangular.at_const, hr2]

/-- C5, witness: row 2 of a checked 2 x 2 grid of zeros. -/
theorem checked_index_eq_at_witness :
    2 ≥ (checked_rectangular.checked_rectangular_fill 64 2 2 (0 : Nat)).height ∧
    ((checked_rectangular.checked_rectangular_fill 64 2 2 (0 : Nat)).operator_index 2
      ).operator_index 64 0 = .error (.out_of_range "rectangular Y index") :=
  ⟨by decide,
    ((checked_index_eq_at 64 (checked_rectangular.checked_rectangular_fill 64 2 2 (0 : Nat))
      2 0).2.2.2.2.2.2 (by decide)).1⟩

/-- C8: for every `h`, `w` and every input sequence `s` of length exactly
`h * w` (a length that is a `size_type` value and that a vector can be given
storage for), the iterator-range constructor succeeds and yields a grid with
`height() == h`, `width() == w`, `size() == h * w` and
`at(r, c) == s[r * w + c]` for every `r < h`, `c < w`. -/
theorem rectangular_range_spec {α : Type} (W : Nat) (lim : vector_limits) (h w : Nat)
    (s : List α)
    (hlen : s.length = h * w) (hrep : s.length < 2 ^ W)
    (hres : vector_reserve lim s.length = .ok ()) :
    ∃ g, rectangular.rectangular_range W lim h w s = .ok g ∧
      g.height = h ∧ g.width = w ∧ g.size = h * w ∧
      ∀ r c, r < h → c < w →
        ∃ a, s[r * w + c]? = some a ∧ g.at_value W r c = .ok a ∧
          g.at_const_value W r c = .ok a := by
  have hmul : size_mul W h w = s.length := by
    rw [hlen]
    exact size_mul_of_lt (by omega)
  refine ⟨{ m_height := h, m_width := w, m_data := s }, ?_, rfl, rfl, hlen, ?_⟩
  · rw [rectangular.range_after_reserve s (by rw [hmul]; exact hres)]
    simp [hmul]
  · intro r c hr hc
    obtain ⟨a, ha, hval⟩ := rectangular.at_value_of_invariant (W := W)
      (g := { m_height := h, m_width := w, m_data := s }) hlen hrep hr hc
    exact ⟨a, ha, hval, hval⟩

/-- C8, witness: the 2 x 3 grid built from "012345" (a vector of `unsigned char`
with a 64-bit `size_type`: `max_size()` is `2^63 - 1`). -/
theorem rectangular_range_spec_witness :
    ("012345".toList.length = 2 * 3 ∧ "012345".toList.length < 2 ^ 64 ∧
     vector_reserve ⟨2 ^ 63 - 1, 2 ^ 63 - 1⟩ "012345".toList.length = .ok ()) ∧
    ∃ g, rectangular.rectangular_range 64 ⟨2 ^ 63 - 1, 2 ^ 63 - 1⟩ 2 3 "012345".toList
        = .ok g ∧
      g.height = 2 ∧ g.width = 3 ∧ g.size = 2 * 3 ∧
      ∀ r c, r < 2 → c < 3 →
        ∃ a, "012345".toList[r * 3 + c]? = some a ∧ g.at_value 64 r c = .ok a ∧
          g.at_const_value 64 r c = .ok a :=
  ⟨⟨by decide, by decide, by decide⟩,
    rectangular_range_spec 64 ⟨2 ^ 63 - 1, 2 ^ 63 - 1⟩ 2 3 "012345".toList
      (by decide) (by decide) (by decide)⟩

/-- C9, as amended: for every `h`, `w` and every source vector `vec` whose
length differs from `h * w` as computed in `size_type`, that is from
`(h * w) mod 2 ^ W` (which is `h * w` whenever `h * w < 2 ^ W`), the
constructor `rectangular(h, w, vec)` throws `std::out_of_range` and leaves
`vec` exactly as it was. -/
theorem rectangular_vector_mismatch {α : Type} (W h w : Nat) (vec : List α)
    (hne : vec.length ≠ (h * w) % 2 ^ W) :
    (rectangular.rectangular_vector W h w vec).1
      = .error (.out_of_range "rectangular vector<> create") ∧
    (rectangular.rectangular_vector W h w vec).2 = vec := by
  unfold rectangular.rectangular_vector size_mul
  simp [hne]

/-- C9, witness: six elements offered for a 2 x 2 grid. -/
theorem rectangular_vector_mismatch_witness :
    [10, 11, 12, 13, 14, 15].length ≠ (2 * 2) % 2 ^ 64 ∧
    (rectangular.rectangular_vector 64 2 2 [10, 11, 12, 13, 14, 15]).1
      = .error (.out_of_range "rectangular vector<> create") ∧
    (rectangular.rectangular_vector 64 2 2 [10, 11, 12, 13, 14, 15]).2
      = [10, 11, 12, 13, 14, 15] :=
  ⟨by decide, rectangular_vector_mismatch 64 2 2 [10, 11, 12, 13, 14, 15] (by decide)⟩

/-- C9, counterexample: with a 64-bit `size_type`, `h = 2^63 + 3` and `w = 2`
give `h * w = 2^64 + 6`, which wraps to 6; a vector of six elements, whose
length is not `h * w`, is accepted: no exception is thrown, a grid is built
and the vector is left empty. -/
theorem rectangular_vector_overflow :
    [10, 11, 12, 13, 14, 15].length ≠ (2 ^ 63 + 3) * 2 ∧
    (rectangular.rectangular_vector 64 (2 ^ 63 + 3) 2 [10, 11, 12, 13, 14, 15]).1
      = .ok { m_height := 2 ^ 63 + 3, m_width := 2, m_data := [10, 11, 12, 13, 14, 15] } ∧
    (rectangular.rectangular_vector 64 (2 ^ 63 + 3) 2 [10, 11, 12, 13, 14, 15]).2 = [] := by
  decide

/-- C10: for every `h`, `w` and every source vector `vec` of length `h * w`
(a length that is a `size_type` value), the constructor `rectangular(h, w, vec)`
succeeds; the new grid has `height() == h`, `width() == w`, `size() == h * w`
and `at(r, c)` equal to the original `vec[r * w + c]` for every `r < h`,
`c < w`; and `vec` is empty afterwards. -/
theorem rectangular_vector_spec {α : Type} (W h w : Nat) (vec : List α)
    (hlen : vec.length = h * w) (hrep : vec.length < 2 ^ W) :
    ∃ g, (rectangular.rectangular_vector W h w vec).1 = .ok g ∧
      g.height = h ∧ g.width = w ∧ g.size = h * w ∧
      (∀ r c, r < h → c < w →
        ∃ a, vec[r * w + c]? = some a ∧ g.at_value W r c = .ok a ∧
          g.at_const_value W r c = .ok a) ∧
      (rectangular.rectangular_vector W h w vec).2 = [] ∧
      (rectangular.rectangular_vector W h w vec).2.length = 0 := by
  have hmul : size_mul W h w = vec.length := by
    rw [hlen]
    exact size_mul_of_lt (by omega)
  refine ⟨{ m_height := h, m_width := w, m_data := vec }, ?_, rfl, rfl, hlen, ?_, ?_, ?_⟩
  · unfold rectangular.rectangular_vector
    simp [hmul]
  · intro r c hr hc
    obtain ⟨a, ha, hval⟩ := rectangular.at_value_of_invariant (W := W)
      (g := { m_height := h, m_width := w, m_data := vec }) hlen hrep hr hc
    exact ⟨a, ha, hval, hval⟩
  · unfold rectangular.rectangular_vector
    simp [hmul]
  · unfold rectangular.rectangular_vector
    simp [hmul]

/-- C10, witness: the 3 x 2 grid taking over the vector 10..15. -/
theorem rectangular_vector_spec_witness :
    ([10, 11, 12, 13, 14, 15].length = 3 * 2 ∧ [10, 11, 12, 13, 14, 15].length < 2 ^ 64) ∧
    ∃ g, (rectangular.rectangular_vector 64 3 2 [10, 11, 12, 13, 14, 15]).1 = .ok g ∧
      g.height = 3 ∧ g.width = 2 ∧ g.size = 3 * 2 ∧
      (∀ r c, r < 3 → c < 2 →
        ∃ a, [10, 11, 12, 13, 14, 15][r * 2 + c]? = some a ∧ g.at_value 64 r c = .ok a ∧
          g.at_const_value 64 r c = .ok a) ∧
      (rectangular.rectangular_vector 64 3 2 [10, 11, 12, 13, 14, 15]).2 = [] ∧
      (rectangular.rectangular_vector 64 3 2 [10, 11, 12, 13, 14, 15]).2.length = 0 :=
  ⟨⟨by decide, by decide⟩,
    rectangular_vector_spec 64 3 2 [10, 11, 12, 13, 14, 15] (by decide) (by decide)⟩

/-! ## The invariant `size() == height() * width()` -/

/-- C11, as amended: storage length == height * width holds for the
default-constructed grid and for every grid produced by a successful
constructor call whose `height * width` is below `2 ^ W`; it is preserved by
writes through `at` and through the unchecked double index, by `fill`, by
copy construction and copy assignment, and it holds for the destination of a
move construction or move assignment; after `resize(nh, nw, v)` it holds
whenever `nh * nw < 2 ^ W`. -/
theorem invariant_preserved {α : Type} (W : Nat) :
    ((rectangular.rectangular_default : rectangular α).size
      = (rectangular.rectangular_default : rectangular α).height
        * (rectangular.rectangular_default : rectangular α).width) ∧
    (∀ (h w : Nat) (v : α), h * w < 2 ^ W →
      (rectangular.rectangular_fill W h w v).size
        = (rectangular.rectangular_fill W h w v).height
          * (rectangular.rectangular_fill W h w v).width) ∧
    (∀ (lim : vector_limits) (h w : Nat) (s : List α) (g : rectangular α), h * w < 2 ^ W →
      rectangular.rectangular_range W lim h w s = .ok g → g.size = g.height * g.width) ∧
    (∀ (h w : Nat) (vec : List α) (g : rectangular α), h * w < 2 ^ W →
      (rectangular.rectangular_vector W h w vec).1 = .ok g → g.size = g.height * g.width) ∧
    (∀ (g g2 : rectangular α) (r c : Nat) (v : α), g.size = g.height * g.width →
      g.at_assign W r c v = .ok g2 → g2.size = g2.height * g2.width) ∧
    (∀ (g g2 : rectangular α) (r c : Nat) (v : α), g.size = g.height * g.width →
      g.index_assign W r c v = .ok g2 → g2.size = g2.height * g2.width) ∧
    (∀ (g : rectangular α) (v : α), g.size = g.height * g.width →
      (g.fill v).size = (g.fill v).height * (g.fill v).width) ∧
    (∀ (g : rectangular α) (nh nw : Nat) (v : α), nh * nw < 2 ^ W →
      (g.resize W nh nw v).size = (g.resize W nh nw v).height * (g.resize W nh nw v).width) ∧
    (∀ a : rectangular α, a.size = a.height * a.width →
      a.copy_construct.size = a.copy_construct.height * a.copy_construct.width) ∧
    (∀ b a : rectangular α, a.size = a.height * a.width →
      (b.copy_assign a).size = (b.copy_assign a).height * (b.copy_assign a).width) ∧
    (∀ a : rectangular α, a.size = a.height * a.width →
      a.move_construct.1.size = a.move_construct.1.height * a.move_construct.1.width) ∧
    (∀ b a : rectangular α, a.size = a.height * a.width →
      (b.move_assign a).1.size = (b.move_assign a).1.height * (b.move_assign a).1.width) := by
  refine ⟨rfl, ?_, ?_, ?_, ?_, ?_, ?_, ?_, ?_, ?_, ?_, ?_⟩
  · intro h w v hov
    simp [rectangular.rectangular_fill, rectangular.size, rectangular.height,
      rectangular.width, size_mul_of_lt hov]
  · intro lim h w s g hov hg
    obtain ⟨hgeq, hlen⟩ := rectangular.range_ok_data hg
    subst hgeq
    rw [size_mul_of_lt hov] at hlen
    exact hlen
  · intro h w vec g hov hg
    obtain ⟨hgeq, hlen⟩ := rectangular.vector_ok_data hg
    subst hgeq
    rw [size_mul_of_lt hov] at hlen
    exact hlen
  · intro g g2 r c v hinv hg
    obtain ⟨h1, h2, h3⟩ := rectangular.at_assign_data hg
    unfold rectangular.size rectangular.height rectangular.width at *
    rw [h1, h2, h3]
    exact hinv
  · intro g g2 r c v hinv hg
    obtain ⟨h1, h2, h3⟩ := rectangular.index_assign_data hg
    unfold rectangular.size rectangular.height rectangular.width at *
    rw [h1, h2, h3]
    exact hinv
  · intro g v hinv
    have hd : (g.fill v).m_data.length = g.m_data.length := by
      rw [rectangular.fill_data]
      exact List.length_replicate _ _
    unfold rectangular.size rectangular.height rectangular.width at *
    rw [hd]
    exact hinv
  · intro g nh nw v hov
    have hd := rectangular.resize_size W g nh nw v
    rw [size_mul_of_lt hov] at hd
    exact hd
  · intro a hinv
    exact hinv
  · intro b a hinv
    exact hinv
  · intro a hinv
    exact hinv
  · intro b a hinv
    exact hinv

/-- C11, witness: the invariant after `fill(8)` on the 2 x 3 grid of zeros. -/
theorem invariant_preserved_witness :
    (rectangular.rectangular_fill 64 2 3 (0 : Nat)).size
      = (rectangular.rectangular_fill 64 2 3 (0 : Nat)).height
        * (rectangular.rectangular_fill 64 2 3 (0 : Nat)).width ∧
    ((rectangular.rectangular_fill 64 2 3 (0 : Nat)).fill 8).size
      = ((rectangular.rectangular_fill 64 2 3 (0 : Nat)).fill 8).height
        * ((rectangular.rectangular_fill 64 2 3 (0 : Nat)).fill 8).width :=
  ⟨by decide,
    (invariant_preserved 64).2.2.2.2.2.2.1 (rectangular.rectangular_fill 64 2 3 (0 : Nat)) 8
      (by decide)⟩

/-- C11, counterexample: with a 64-bit `size_type` the invariant fails for the
grid built by `rectangular(2^32, 2^32, 7)` and for a 1 x 1 grid after
`resize(2^32, 2^32, 0)` (the product wraps to 0); it also fails for both grids
after the member `swap` of a 2 x 3 with a 1 x 1 grid, and for the source of a
move construction or move assignment from a 2 x 3 grid. -/
theorem invariant_broken :
    (rectangular.rectangular_fill 64 (2 ^ 32) (2 ^ 32) (7 : Nat)).size
      ≠ (rectangular.rectangular_fill 64 (2 ^ 32) (2 ^ 32) (7 : Nat)).height
        * (rectangular.rectangular_fill 64 (2 ^ 32) (2 ^ 32) (7 : Nat)).width ∧
    ((rectangular.rectangular_fill 64 1 1 (7 : Nat)).resize 64 (2 ^ 32) (2 ^ 32) 0).size
      ≠ ((rectangular.rectangular_fill 64 1 1 (7 : Nat)).resize 64 (2 ^ 32) (2 ^ 32) 0).height
        * ((rectangular.rectangular_fill 64 1 1 (7 : Nat)).resize 64 (2 ^ 32) (2 ^ 32) 0).width ∧
    ((rectangular.rectangular_fill 64 2 3 (0 : Nat)).swap
        (rectangular.rectangular_fill 64 1 1 5)).1
      = { m_height := 1, m_width := 2, m_data := [5] } ∧
    ((rectangular.rectangular_fill 64 2 3 (0 : Nat)).swap
        (rectangular.rectangular_fill 64 1 1 5)).2
      = { m_height := 3, m_width := 1, m_data := [0, 0, 0, 0, 0, 0] } ∧
    (rectangular.rectangular_fill 64 2 3 (7 : Nat)).move_construct.2
      = { m_height := 2, m_width := 3, m_data := [] } ∧
    ((rectangular.rectangular_default : rectangular Nat).move_assign
        (rectangular.rectangular_fill 64 2 3 7)).2
      = { m_height := 2, m_width := 3, m_data := [] } := by
  decide

/-! ## Move and swap -/

/-- C12: the code at the test's input.  After `R i{2, 3, 7}; R j{std::move(i)};`
the moved-from `i` has `size() == 0` but keeps `height() == 2` and
`width() == 3`, so that storage length is not `height * width`; the same after
the move assignment `k = std::move(i)`. -/
theorem move_source_keeps_dimensions :
    (rectangular.rectangular_fill 64 2 3 (7 : Nat)).move_construct.2.size = 0 ∧
    (rectangular.rectangular_fill 64 2 3 (7 : Nat)).move_construct.2.height = 2 ∧
    (rectangular.rectangular_fill 64 2 3 (7 : Nat)).move_construct.2.width = 3 ∧
    (rectangular.rectangular_fill 64 2 3 (7 : Nat)).move_construct.2.size
      ≠ (rectangular.rectangular_fill 64 2 3 (7 : Nat)).move_construct.2.height
        * (rectangular.rectangular_fill 64 2 3 (7 : Nat)).move_construct.2.width ∧
    ((rectangular.rectangular_default : rectangular Nat).move_assign
        (rectangular.rectangular_fill 64 2 3 7)).2.size = 0 ∧
    ((rectangular.rectangular_default : rectangular Nat).move_assign
        (rectangular.rectangular_fill 64 2 3 7)).2.height = 2 ∧
    ((rectangular.rectangular_default : rectangular Nat).move_assign
        (rectangular.rectangular_fill 64 2 3 7)).2.width = 3 := by
  decide

/-- C13: for every grid `a`, after a move construction or a move assignment
into `b`, `b` has the height, width, size and backing contents `a` had, and
`at(r, c)` on `b` gives what it gave on `a` for every `(r, c)`. -/
theorem move_destination {α : Type} (a b : rectangular α) :
    (a.move_construct.1.height = a.height ∧ a.move_construct.1.width = a.width ∧
     a.move_construct.1.size = a.size ∧ a.move_construct.1.m_data = a.m_data ∧
     ∀ W r c, a.move_construct.1.at_value W r c = a.at_value W r c) ∧
    ((b.move_assign a).1.height = a.height ∧ (b.move_assign a).1.width = a.width ∧
     (b.move_assign a).1.size = a.size ∧ (b.move_assign a).1.m_data = a.m_data ∧
     ∀ W r c, (b.move_assign a).1.at_value W r c = a.at_value W r c) :=
  ⟨⟨rfl, rfl, rfl, rfl, fun _ _ _ => rfl⟩, ⟨rfl, rfl, rfl, rfl, fun _ _ _ => rfl⟩⟩

/-- C14: the code at a failing input.  For a 2 x 3 grid `a` of zeros and a
1 x 1 grid `b` holding 5, `a.swap(b)` leaves `a` with height 1, width 2 and
contents `[5]`, and `b` with height 3, width 1 and the six zeros: `a`'s width
is not `b`'s former width 1, and `b`'s height and width are not `a`'s former
2 and 3. -/
theorem swap_mixes_width_and_height :
    ((rectangular.rectangular_fill 64 2 3 (0 : Nat)).swap
        (rectangular.rectangular_fill 64 1 1 5))
      = ({ m_height := 1, m_width := 2, m_data := [5] },
         { m_height := 3, m_width := 1, m_data := [0, 0, 0, 0, 0, 0] }) ∧
    ((rectangular.rectangular_fill 64 2 3 (0 : Nat)).swap
        (rectangular.rectangular_fill 64 1 1 5)).1.width
      ≠ (rectangular.rectangular_fill 64 1 1 (5 : Nat)).width ∧
    ((rectangular.rectangular_fill 64 2 3 (0 : Nat)).swap
        (rectangular.rectangular_fill 64 1 1 5)).2.height
      ≠ (rectangular.rectangular_fill 64 2 3 (0 : Nat)).height ∧
    ((rectangular.rectangular_fill 64 2 3 (0 : Nat)).swap
        (rectangular.rectangular_fill 64 1 1 5)).2.width
      ≠ (rectangular.rectangular_fill 64 2 3 (0 : Nat)).width := by
  decide

/-- C15: for every two grids `x` and `y` with storage length ==
height * width, the generic `std::swap(x, y)` (move-construct a temporary from
`x`, move-assign `y` into `x`, move-assign the temporary into `y`) leaves `x`
with `y`'s former height, width, size and contents and `y` with `x`'s former
ones, and both satisfy storage length == height * width afterwards. -/
theorem std_swap_spec {α : Type} (x y : rectangular α)
    (hx : x.size = x.height * x.width) (hy : y.size = y.height * y.width) :
    ((x.std_swap y).1.height = y.height ∧ (x.std_swap y).1.width = y.width ∧
     (x.std_swap y).1.size = y.size ∧ (x.std_swap y).1.m_data = y.m_data) ∧
    ((x.std_swap y).2.height = x.height ∧ (x.std_swap y).2.width = x.width ∧
     (x.std_swap y).2.size = x.size ∧ (x.std_swap y).2.m_data = x.m_data) ∧
    (x.std_swap y).1.size = (x.std_swap y).1.height * (x.std_swap y).1.width ∧
    (x.std_swap y).2.size = (x.std_swap y).2.height * (x.std_swap y).2.width :=
  ⟨⟨rfl, rfl, rfl, rfl⟩, ⟨rfl, rfl, rfl, rfl⟩, hy, hx⟩

/-- C15, witness: `std::swap` of a 2 x 2 grid of zeros and the empty grid. -/
theorem std_swap_spec_witness :
    ((rectangular.rectangular_fill 64 2 2 (0 : Nat)).size
        = (rectangular.rectangular_fill 64 2 2 (0 : Nat)).height
          * (rectangular.rectangular_fill 64 2 2 (0 : Nat)).width ∧
     (rectangular.rectangular_default : rectangular Nat).size
        = (rectangular.rectangular_default : rectangular Nat).height
          * (rectangular.rectangular_default : rectangular Nat).width) ∧
    (((rectangular.rectangular_fill 64 2 2 (0 : Nat)).std_swap
        rectangular.rectangular_default).1.size = 0 ∧
     ((rectangular.rectangular_fill 64 2 2 (0 : Nat)).std_swap
        rectangular.rectangular_default).2.size = 4) ∧
    ((((rectangular.rectangular_fill 64 2 2 (0 : Nat)).std_swap
          rectangular.rectangular_default).1.height
        = (rectangular.rectangular_default : rectangular Nat).height ∧
      ((rectangular.rectangular_fill 64 2 2 (0 : Nat)).std_swap
          rectangular.rectangular_default).1.width
        = (rectangular.rectangular_default : rectangular Nat).width ∧
      ((rectangular.rectangular_fill 64 2 2 (0 : Nat)).std_swap
          rectangular.rectangular_default).1.size
        = (rectangular.rectangular_default : rectangular Nat).size ∧
      ((rectangular.rectangular_fill 64 2 2 (0 : Nat)).std_swap
          rectangular.rectangular_default).1.m_data
        = (rectangular.rectangular_default : rectangular Nat).m_data) ∧
     (((rectangular.rectangular_fill 64 2 2 (0 : Nat)).std_swap
          rectangular.rectangular_default).2.height
        = (rectangular.rectangular_fill 64 2 2 (0 : Nat)).height ∧
      ((rectangular.rectangular_fill 64 2 2 (0 : Nat)).std_swap
          rectangular.rectangular_default).2.width
        = (rectangular.rectangular_fill 64 2 2 (0 : Nat)).width ∧
      ((rectangular.rectangular_fill 64 2 2 (0 : Nat)).std_swap
          rectangular.rectangular_default).2.size
        = (rectangular.rectangular_fill 64 2 2 (0 : Nat)).size ∧
      ((rectangular.rectangular_fill 64 2 2 (0 : Nat)).std_swap
          rectangular.rectangular_default).2.m_data
        = (rectangular.rectangular_fill 64 2 2 (0 : Nat)).m_data) ∧
     ((rectangular.rectangular_fill 64 2 2 (0 : Nat)).std_swap
          rectangular.rectangular_default).1.size
        = ((rectangular.rectangular_fill 64 2 2 (0 : Nat)).std_swap
            rectangular.rectangular_default).1.height
          * ((rectangular.rectangular_fill 64 2 2 (0 : Nat)).std_swap
            rectangular.rectangular_default).1.width ∧
     ((rectangular.rectangular_fill 64 2 2 (0 : Nat)).std_swap
          rectangular.rectangular_default).2.size
        = ((rectangular.rectangular_fill 64 2 2 (0 : Nat)).std_swap
            rectangular.rectangular_default).2.height
          * ((rectangular.rectangular_fill 64 2 2 (0 : Nat)).std_swap
            rectangular.rectangular_default).2.width) :=
  ⟨⟨by decide, by decide⟩, ⟨by decide, by decide⟩,
    std_swap_spec (rectangular.rectangular_fill 64 2 2 (0 : Nat))
      rectangular.rectangular_default (by decide) (by decide)⟩

/-! ## `resize` and `fill` -/

/-- C16, as amended: for every grid and every `new_height`, `new_width` and
fill value, `resize(new_height, new_width, value)` succeeds and leaves
`height() == new_height`, `width() == new_width` and `size()` equal to
`new_height * new_width` as computed in `size_type`, that is
`(new_height * new_width) mod 2 ^ W`, which is `new_height * new_width`
whenever that product is below `2 ^ W`; the same without a fill value. -/
theorem resize_dimensions {α : Type} [Inhabited α] (W : Nat) (g : rectangular α)
    (nh nw : Nat) (v : α) :
    (g.resize W nh nw v).height = nh ∧ (g.resize W nh nw v).width = nw ∧
    (g.resize W nh nw v).size = (nh * nw) % 2 ^ W ∧
    (nh * nw < 2 ^ W → (g.resize W nh nw v).size = nh * nw) ∧
    (g.resize_default W nh nw).height = nh ∧ (g.resize_default W nh nw).width = nw ∧
    (g.resize_default W nh nw).size = (nh * nw) % 2 ^ W ∧
    (nh * nw < 2 ^ W → (g.resize_default W nh nw).size = nh * nw) := by
  have hs : ∀ x : α, (g.resize W nh nw x).size = (nh * nw) % 2 ^ W :=
    fun x => rectangular.resize_size W g nh nw x
  refine ⟨rfl, rfl, hs v, ?_, rfl, rfl, hs default, ?_⟩
  · intro hov
    rw [hs v]
    exact Nat.mod_eq_of_lt hov
  · intro hov
    exact (hs default).trans (Nat.mod_eq_of_lt hov)

/-- C16, witness: the 1 x 6 grid "123456" resized to 2 x 3. -/
theorem resize_dimensions_witness :
    2 * 3 < 2 ^ 64 ∧
    ((⟨1, 6, "123456".toList⟩ : rectangular Char).resize 64 2 3 default).size = 2 * 3 :=
  ⟨by decide,
    (resize_dimensions 64 (⟨1, 6, "123456".toList⟩ : rectangular Char) 2 3 default).2.2.2.1
      (by decide)⟩

/-- C16, counterexample: with a 64-bit `size_type`, `resize(2^32, 2^32, 0)` on
a 1 x 1 grid leaves `height() == width() == 2^32` and `size() == 0`, which is
not `2^32 * 2^32`. -/
theorem resize_overflow :
    ((rectangular.rectangular_fill 64 1 1 (7 : Nat)).resize 64 (2 ^ 32) (2 ^ 32) 0).height
      = 2 ^ 32 ∧
    ((rectangular.rectangular_fill 64 1 1 (7 : Nat)).resize 64 (2 ^ 32) (2 ^ 32) 0).width
      = 2 ^ 32 ∧
    ((rectangular.rectangular_fill 64 1 1 (7 : Nat)).resize 64 (2 ^ 32) (2 ^ 32) 0).size = 0 ∧
    ((rectangular.rectangular_fill 64 1 1 (7 : Nat)).resize 64 (2 ^ 32) (2 ^ 32) 0).size
      ≠ 2 ^ 32 * 2 ^ 32 := by
  decide

/-- C17, as amended: for every grid with backing sequence `d` of length
`oldSize` and every `resize(new_height, new_width, value)`, with `newSize`
the product `new_height * new_width` as computed in `size_type`, that is
`(new_height * new_width) mod 2 ^ W`: the new backing sequence `d'` has
`d'[k] == d[k]` for every `k < min(oldSize, newSize)` and `d'[k] == value` for
every `k` with `oldSize <= k < newSize`. -/
theorem resize_contents {α : Type} (W : Nat) (g : rectangular α) (nh nw : Nat) (v : α)
    (k : Nat) :
    (k < min g.size ((nh * nw) % 2 ^ W) →
      ∃ a, g.m_data[k]? = some a ∧ (g.resize W nh nw v).m_data[k]? = some a) ∧
    (g.size ≤ k → k < (nh * nw) % 2 ^ W → (g.resize W nh nw v).m_data[k]? = some v) := by
  constructor
  · intro hk
    have hk1 : k < g.m_data.length := by
      have : k < min g.m_data.length ((nh * nw) % 2 ^ W) := hk
      omega
    refine ⟨g.m_data.get ⟨k, hk1⟩, ?_, ?_⟩
    · rw [List.getElem?_eq_getElem hk1]
      rfl
    · have h2 : (g.resize W nh nw v).m_data[k]? = g.m_data[k]? :=
        vector_resize_getElem?_old g.m_data (size_mul W nh nw) v hk
      rw [h2, List.getElem?_eq_getElem hk1]
      rfl
  · intro h1 h2
    exact vector_resize_getElem?_new g.m_data (size_mul W nh nw) v h1 h2

/-- C17, witness: "123456" resized to 2 x 4 with fill `x`: slot 1 keeps `2`,
slot 7 holds `x`. -/
theorem resize_contents_witness :
    (1 < min (⟨1, 6, "123456".toList⟩ : rectangular Char).size ((2 * 4) % 2 ^ 64) ∧
     ∃ a, (⟨1, 6, "123456".toList⟩ : rectangular Char).m_data[1]? = some a ∧
      ((⟨1, 6, "123456".toList⟩ : rectangular Char).resize 64 2 4 (Char.ofNat 120)).m_data[1]?
        = some a) ∧
    ((⟨1, 6, "123456".toList⟩ : rectangular Char).size ≤ 7 ∧ 7 < (2 * 4) % 2 ^ 64 ∧
     ((⟨1, 6, "123456".toList⟩ : rectangular Char).resize 64 2 4 (Char.ofNat 120)).m_data[7]?
        = some (Char.ofNat 120)) :=
  ⟨⟨by decide,
     (resize_contents 64 (⟨1, 6, "123456".toList⟩ : rectangular Char) 2 4 (Char.ofNat 120) 1).1
       (by decide)⟩,
   ⟨by decide, by decide,
     (resize_contents 64 (⟨1, 6, "123456".toList⟩ : rectangular Char) 2 4 (Char.ofNat 120) 7).2
       (by decide) (by decide)⟩⟩

/-- C17, counterexample: with a 64-bit `size_type`, a 1 x 1 grid holding 7 and
`resize(2^32, 2^32, 0)`: `k = 0` is below `min(oldSize, 2^32 * 2^32) = 1`, yet
the new backing sequence is empty, so `d'[0]` is not the old `d[0] == 7`. -/
theorem resize_overflow_loses_elements :
    0 < min (rectangular.rectangular_fill 64 1 1 (7 : Nat)).size (2 ^ 32 * 2 ^ 32) ∧
    (rectangular.rectangular_fill 64 1 1 (7 : Nat)).m_data[0]? = some 7 ∧
    ((rectangular.rectangular_fill 64 1 1 (7 : Nat)).resize 64 (2 ^ 32) (2 ^ 32) 0).m_data[0]?
      = none ∧
    ((rectangular.rectangular_fill 64 1 1 (7 : Nat)).resize 64 (2 ^ 32) (2 ^ 32) 0).m_data
      = [] := by
  decide

/-- C18, as amended: for every grid and every value `v`, `fill(v)` succeeds,
leaves `height()`, `width()` and `size()` unchanged, and afterwards every
element of the backing sequence equals `v`; `at(r, c) == v` for every
`r < height()`, `c < width()` whose linear index, as computed in `size_type`,
lies inside the backing sequence, hence for every in-bounds `(r, c)` when
storage length == height * width (a length that is a `size_type` value). -/
theorem fill_spec {α : Type} (W : Nat) (g : rectangular α) (v : α) :
    (g.fill v).height = g.height ∧ (g.fill v).width = g.width ∧
    (g.fill v).size = g.size ∧
    (g.fill v).m_data = List.replicate g.size v ∧
    (∀ k, k < g.size → (g.fill v).m_data[k]? = some v) ∧
    (∀ r c, r < g.height → c < g.width →
      size_add W (size_mul W r g.width) c < g.size → (g.fill v).at_value W r c = .ok v) ∧
    (g.size = g.height * g.width → g.size < 2 ^ W →
      ∀ r c, r < g.height → c < g.width → (g.fill v).at_value W r c = .ok v) := by
  have hd : (g.fill v).m_data = List.replicate g.m_data.length v := rectangular.fill_data g v
  have hlen : (g.fill v).m_data.length = g.m_data.length := by
    rw [hd]
    exact List.length_replicate _ _
  have hh : (g.fill v).m_height = g.m_height := rfl
  have hw : (g.fill v).m_width = g.m_width := rfl
  have hat : ∀ r c, r < g.m_height → c < g.m_width →
      size_add W (size_mul W r g.m_width) c < g.m_data.length →
      (g.fill v).at_value W r c = .ok v := by
    intro r c hr hc hs
    unfold rectangular.at_value rectangular.at vector_index
    rw [hh, hw, hlen, if_neg (by omega), if_neg (by omega), if_pos hs]
    simp only [load, hd]
    rw [List.getElem?_replicate, if_pos hs]
  refine ⟨rfl, rfl, hlen, hd, ?_, hat, ?_⟩
  · intro k hk
    have hk1 : k < g.m_data.length := hk
    rw [hd, List.getElem?_replicate, if_pos hk1]
  · intro hinv hrep r c hr hc
    have hslot : r * g.m_width + c < g.m_data.length :=
      rectangular.slot_of_invariant hinv hr hc
    have hidx : size_add W (size_mul W r g.m_width) c = r * g.m_width + c :=
      linear_index_of_lt (by
        have : g.m_data.length < 2 ^ W := hrep
        omega)
    exact hat r c hr hc (by rw [hidx]; exact hslot)

/-- C18, witness: `fill(8)` on the 2 x 3 grid of zeros, read at (1, 2). -/
theorem fill_spec_witness :
    ((rectangular.rectangular_fill 64 2 3 (0 : Nat)).size
        = (rectangular.rectangular_fill 64 2 3 (0 : Nat)).height
          * (rectangular.rectangular_fill 64 2 3 (0 : Nat)).width ∧
     (rectangular.rectangular_fill 64 2 3 (0 : Nat)).size < 2 ^ 64 ∧
     1 < (rectangular.rectangular_fill 64 2 3 (0 : Nat)).height ∧
     2 < (rectangular.rectangular_fill 64 2 3 (0 : Nat)).width) ∧
    ((rectangular.rectangular_fill 64 2 3 (0 : Nat)).fill 8).at_value 64 1 2 = .ok 8 :=
  ⟨⟨by decide, by decide, by decide, by decide⟩,
    (fill_spec 64 (rectangular.rectangular_fill 64 2 3 (0 : Nat)) 8).2.2.2.2.2.2
      (by decide) (by decide) 1 2 (by decide) (by decide)⟩

/-- C18, counterexample: with a 64-bit `size_type`, on the grid built by
`rectangular(2^32, 2^32, 7)`, whose backing sequence is empty, `fill(8)`
changes nothing and `at(0, 0)`, with `0 < height()` and `0 < width()`, reaches
outside the storage instead of yielding 8. -/
theorem fill_then_at_not_ok :
    0 < ((rectangular.rectangular_fill 64 (2 ^ 32) (2 ^ 32) (7 : Nat)).fill 8).height ∧
    0 < ((rectangular.rectangular_fill 64 (2 ^ 32) (2 ^ 32) (7 : Nat)).fill 8).width ∧
    ((rectangular.rectangular_fill 64 (2 ^ 32) (2 ^ 32) (7 : Nat)).fill 8).at_value 64 0 0
      = .error .undefined ∧
    ((rectangular.rectangular_fill 64 (2 ^ 32) (2 ^ 32) (7 : Nat)).fill 8).at_value 64 0 0
      ≠ .ok 8 := by
  decide

/-! ## Iteration -/

/-- C19: for every grid with storage length == height * width (a length that
is a `size_type` value), `end() - begin() == size()`, the traversal from
`begin()` to `end()` visits exactly `size()` elements, and the `k`-th element
visited, for `k < size()`, is `at(k / width(), k % width())`, which is slot
`k` of the backing sequence. -/
theorem iteration_row_major {α : Type} (W : Nat) (g : rectangular α)
    (hinv : g.size = g.height * g.width) (hrep : g.size < 2 ^ W) :
    g.end - g.begin = g.size ∧ g.visited.length = g.size ∧
    ∀ k, k < g.size →
      ∃ a, g.visited[k]? = some (.ok a) ∧ g.m_data[k]? = some a ∧
        g.at_value W (k / g.width) (k % g.width) = .ok a ∧
        g.at_const_value W (k / g.width) (k % g.width) = .ok a := by
  refine ⟨rfl, ?_, ?_⟩
  · simp [rectangular.visited, rectangular.end, rectangular.begin, rectangular.size]
  · intro k hk
    have hinv1 : g.m_data.length = g.m_height * g.m_width := hinv
    have hk1 : k < g.m_height * g.m_width := by
      have : k < g.m_data.length := hk
      omega
    have hwpos : 0 < g.m_width := by
      rcases Nat.eq_zero_or_pos g.m_width with h0 | hpos
      · rw [h0, Nat.mul_zero] at hk1
        omega
      · exact hpos
    have hr : k / g.m_width < g.m_height :=
      Nat.div_lt_of_lt_mul (by rw [Nat.mul_comm]; exact hk1)
    have hc : k % g.m_width < g.m_width := Nat.mod_lt k hwpos
    obtain ⟨a, ha, hval⟩ := rectangular.at_value_of_invariant (W := W) hinv1 hrep hr hc
    have hslot : k / g.m_width * g.m_width + k % g.m_width = k := Nat.div_add_mod' k g.m_width
    rw [hslot] at ha
    refine ⟨a, ?_, ha, hval, hval⟩
    have hk2 : k < g.m_data.length := hk
    simp [rectangular.visited, rectangular.end, rectangular.begin, rectangular.deref, load,
      List.getElem?_range, hk2, ha]

/-- C19, witness: the 2 x 3 grid holding "123456". -/
theorem iteration_row_major_witness :
    ((⟨2, 3, "123456".toList⟩ : rectangular Char).size
        = (⟨2, 3, "123456".toList⟩ : rectangular Char).height
          * (⟨2, 3, "123456".toList⟩ : rectangular Char).width ∧
     (⟨2, 3, "123456".toList⟩ : rectangular Char).size < 2 ^ 64) ∧
    ((⟨2, 3, "123456".toList⟩ : rectangular Char).end
        - (⟨2, 3, "123456".toList⟩ : rectangular Char).begin
      = (⟨2, 3, "123456".toList⟩ : rectangular Char).size ∧
     (⟨2, 3, "123456".toList⟩ : rectangular Char).visited.length
      = (⟨2, 3, "123456".toList⟩ : rectangular Char).size ∧
     ∀ k, k < (⟨2, 3, "123456".toList⟩ : rectangular Char).size →
      ∃ a, (⟨2, 3, "123456".toList⟩ : rectangular Char).visited[k]? = some (.ok a) ∧
        (⟨2, 3, "123456".toList⟩ : rectangular Char).m_data[k]? = some a ∧
        (⟨2, 3, "123456".toList⟩ : rectangular Char).at_value 64
          (k / (⟨2, 3, "123456".toList⟩ : rectangular Char).width)
          (k % (⟨2, 3, "123456".toList⟩ : rectangular Char).width) = .ok a ∧
        (⟨2, 3, "123456".toList⟩ : rectangular Char).at_const_value 64
          (k / (⟨2, 3, "123456".toList⟩ : rectangular Char).width)
          (k % (⟨2, 3, "123456".toList⟩ : rectangular Char).width) = .ok a) :=
  ⟨⟨by decide, by decide⟩,
    iteration_row_major 64 (⟨2, 3, "123456".toList⟩ : rectangular Char)
      (by decide) (by decide)⟩

/-! ## Grids with a zero dimension -/

/-- C20: for every grid produced by a constructor with height 0 or width 0
(the default constructor, the dimensioned constructor, and a successful
iterator-range or vector constructor), `size() == 0`, `empty()` is true, and
for every `r` and `c` both overloads of `at(r, c)` and both forms of the
checked double index `[r][c]` throw `std::out_of_range`. -/
theorem zero_dimension_grid {α : Type} (W h w : Nat) (g : rectangular α)
    (hz : h = 0 ∨ w = 0)
    (hg : g = rectangular.rectangular_default ∨
      (∃ v, g = rectangular.rectangular_fill W h w v) ∨
      (∃ lim s, rectangular.rectangular_range W lim h w s = .ok g) ∨
      (∃ vec, (rectangular.rectangular_vector W h w vec).1 = .ok g)) :
    (rectangular.rectangular_default : rectangular α).height = 0 ∧
    (rectangular.rectangular_default : rectangular α).width = 0 ∧
    g.size = 0 ∧ g.empty = true ∧
    ∀ r c,
      (∃ msg, g.at W r c = .error (.out_of_range msg)) ∧
      (∃ msg, g.at_const W r c = .error (.out_of_range msg)) ∧
      (∃ msg, checked_rectangular.index_ref W { torectangular := g } r c
        = .error (.out_of_range msg)) ∧
      (∃ msg, checked_rectangular.index_ref_const W { torectangular := g } r c
        = .error (.out_of_range msg)) := by
  have hprod : size_mul W h w = 0 := by
    unfold size_mul
    rcases hz with h0 | h0
    · rw [h0]; simp
    · rw [h0]; simp
  have hshape : (g.m_height = 0 ∨ g.m_width = 0) ∧ g.m_data = [] := by
    rcases hg with hg | ⟨v, hg⟩ | ⟨lim, s, hg⟩ | ⟨vec, hg⟩
    · subst hg
      exact ⟨Or.inl rfl, rfl⟩
    · subst hg
      refine ⟨hz, ?_⟩
      simp [rectangular.rectangular_fill, hprod]
    · obtain ⟨hgeq, hlen⟩ := rectangular.range_ok_data hg
      subst hgeq
      rw [hprod] at hlen
      exact ⟨hz, List.eq_nil_of_length_eq_zero hlen⟩
    · obtain ⟨hgeq, hlen⟩ := rectangular.vector_ok_data hg
      subst hgeq
      rw [hprod] at hlen
      exact ⟨hz, List.eq_nil_of_length_eq_zero hlen⟩
  obtain ⟨hdim, hdata⟩ := hshape
  have hat : ∀ r c, ∃ msg, g.at W r c = .error (.out_of_range msg) := by
    intro r c
    unfold rectangular.at
    by_cases hr : r ≥ g.m_height
    · exact ⟨_, if_pos hr⟩
    · have hc : c ≥ g.m_width := by omega
      rw [if_neg hr, if_pos hc]
      exact ⟨_, rfl⟩
  refine ⟨rfl, rfl, ?_, ?_, ?_⟩
  · unfold rectangular.size
    rw [hdata]
    rfl
  · unfold rectangular.empty
    rw [hdata]
    rfl
  · intro r c
    exact ⟨hat r c, hat r c, hat r c, hat r c⟩

/-- C20, witness: the checked 0 x 1 grid of the tests. -/
theorem zero_dimension_grid_witness :
    ((0 = 0 ∨ 1 = 0) ∧
     (rectangular.rectangular_fill 64 0 1 (0 : Nat) = rectangular.rectangular_default ∨
      (∃ v, rectangular.rectangular_fill 64 0 1 (0 : Nat)
        = rectangular.rectangular_fill 64 0 1 v) ∨
      (∃ lim s, rectangular.rectangular_range 64 lim 0 1 s
        = .ok (rectangular.rectangular_fill 64 0 1 (0 : Nat))) ∨
      (∃ vec, (rectangular.rectangular_vector 64 0 1 vec).1
        = .ok (rectangular.rectangular_fill 64 0 1 (0 : Nat))))) ∧
    ((rectangular.rectangular_default : rectangular Nat).height = 0 ∧
     (rectangular.rectangular_default : rectangular Nat).width = 0 ∧
     (rectangular.rectangular_fill 64 0 1 (0 : Nat)).size = 0 ∧
     (rectangular.rectangular_fill 64 0 1 (0 : Nat)).empty = true ∧
     ∀ r c,
      (∃ msg, (rectangular.rectangular_fill 64 0 1 (0 : Nat)).at 64 r c
        = .error (.out_of_range msg)) ∧
      (∃ msg, (rectangular.rectangular_fill 64 0 1 (0 : Nat)).at_const 64 r c
        = .error (.out_of_range msg)) ∧
      (∃ msg, checked_rectangular.index_ref 64
          { torectangular := rectangular.rectangular_fill 64 0 1 (0 : Nat) } r c
        = .error (.out_of_range msg)) ∧
      (∃ msg, checked_rectangular.index_ref_const 64
          { torectangular := rectangular.rectangular_fill 64 0 1 (0 : Nat) } r c
        = .error (.out_of_range msg))) :=
  ⟨⟨Or.inl rfl, Or.inr (Or.inl ⟨0, rfl⟩)⟩,
    zero_dimension_grid 64 0 1 (rectangular.rectangular_fill 64 0 1 (0 : Nat))
      (Or.inl rfl) (Or.inr (Or.inl ⟨0, rfl⟩))⟩

/-! ## Negative coordinates and failure messages -/

/-- C21: with integer coordinates converted to the `W`-bit `size_type`
(`n` maps to `n mod 2 ^ W`), for every grid (whose `height()` and `width()`
are `size_type` values) `at(-1, c)` and `at(r, -1)` throw `std::out_of_range`
for every `r` and `c`; more generally, for `k >= 1`, `at` with row coordinate
`-k` throws whenever `height() <= 2 ^ W - k`, and with column coordinate `-k`
whenever `width() <= 2 ^ W - k`.  Both overloads. -/
theorem at_negative_coordinate {α : Type} (W : Nat) (g : rectangular α) (r c : Nat)
    (hh : g.height < 2 ^ W) (hw : g.width < 2 ^ W) :
    (∃ msg, g.at W (to_size_type W (-1)) c = .error (.out_of_range msg)) ∧
    (∃ msg, g.at W r (to_size_type W (-1)) = .error (.out_of_range msg)) ∧
    (∃ msg, g.at_const W (to_size_type W (-1)) c = .error (.out_of_range msg)) ∧
    (∃ msg, g.at_const W r (to_size_type W (-1)) = .error (.out_of_range msg)) ∧
    (∀ k : Nat, 1 ≤ k → (g.height : Int) ≤ (2 : Int) ^ W - (k : Int) →
      (∃ msg, g.at W (to_size_type W (-(k : Int))) c = .error (.out_of_range msg)) ∧
      (∃ msg, g.at_const W (to_size_type W (-(k : Int))) c = .error (.out_of_range msg))) ∧
    (∀ k : Nat, 1 ≤ k → (g.width : Int) ≤ (2 : Int) ^ W - (k : Int) →
      (∃ msg, g.at W r (to_size_type W (-(k : Int))) = .error (.out_of_range msg)) ∧
      (∃ msg, g.at_const W r (to_size_type W (-(k : Int))) = .error (.out_of_range msg))) := by
  have hm : ((2 : Int) ^ W) = ((2 ^ W : Nat) : Int) := by push_cast; rfl
  have hrow : ∀ y x : Nat, y ≥ g.m_height →
      ∃ msg, g.at W y x = .error (.out_of_range msg) := by
    intro y x hy
    unfold rectangular.at
    exact ⟨_, if_pos hy⟩
  have hcol : ∀ y x : Nat, x ≥ g.m_width →
      ∃ msg, g.at W y x = .error (.out_of_range msg) := by
    intro y x hx
    by_cases hy : y ≥ g.m_height
    · exact hrow y x hy
    · unfold rectangular.at
      rw [if_neg hy, if_pos hx]
      exact ⟨_, rfl⟩
  have hgen_row : ∀ k : Nat, 1 ≤ k → (g.height : Int) ≤ (2 : Int) ^ W - (k : Int) →
      to_size_type W (-(k : Int)) ≥ g.m_height := by
    intro k hk hle
    rw [hm] at hle
    have hh2 : (g.m_height : Int) ≤ ((2 ^ W : Nat) : Int) - (k : Int) := hle
    have hk2 : k ≤ 2 ^ W := by omega
    rw [to_size_type_neg hk hk2]
    omega
  have hgen_col : ∀ k : Nat, 1 ≤ k → (g.width : Int) ≤ (2 : Int) ^ W - (k : Int) →
      to_size_type W (-(k : Int)) ≥ g.m_width := by
    intro k hk hle
    rw [hm] at hle
    have hw2 : (g.m_width : Int) ≤ ((2 ^ W : Nat) : Int) - (k : Int) := hle
    have hk2 : k ≤ 2 ^ W := by omega
    rw [to_size_type_neg hk hk2]
    omega
  have hh1 : g.m_height < 2 ^ W := hh
  have hw1 : g.m_width < 2 ^ W := hw
  have hone_row : to_size_type W (-1) ≥ g.m_height := by
    have := hgen_row 1 (Nat.le_refl 1) (by
      rw [hm]
      have : (g.height : Int) < ((2 ^ W : Nat) : Int) := by exact_mod_cast hh
      omega)
    simpa using this
  have hone_col : to_size_type W (-1) ≥ g.m_width := by
    have := hgen_col 1 (Nat.le_refl 1) (by
      rw [hm]
      have : (g.width : Int) < ((2 ^ W : Nat) : Int) := by exact_mod_cast hw
      omega)
    simpa using this
  refine ⟨hrow _ c hone_row, hcol r _ hone_col, hrow _ c hone_row, hcol r _ hone_col, ?_, ?_⟩
  · intro k hk hle
    exact ⟨hrow _ c (hgen_row k hk hle), hrow _ c (hgen_row k hk hle)⟩
  · intro k hk hle
    exact ⟨hcol r _ (hgen_col k hk hle), hcol r _ (hgen_col k hk hle)⟩

/-- C21, witness: the 2 x 3 grid of zeros of the tests, 64-bit `size_type`. -/
theorem at_negative_coordinate_witness :
    ((rectangular.rectangular_fill 64 2 3 (0 : Nat)).height < 2 ^ 64 ∧
     (rectangular.rectangular_fill 64 2 3 (0 : Nat)).width < 2 ^ 64) ∧
    (rectangular.rectangular_fill 64 2 3 (0 : Nat)).at 64 (to_size_type 64 (-1)) 0
      = .error (.out_of_range "rectangular Y index") ∧
    (rectangular.rectangular_fill 64 2 3 (0 : Nat)).at 64 0 (to_size_type 64 (-1))
      = .error (.out_of_range "rectangular X index") ∧
    ∃ msg, (rectangular.rectangular_fill 64 2 3 (0 : Nat)).at 64 (to_size_type 64 (-1)) 0
      = .error (.out_of_range msg) :=
  ⟨⟨by decide, by decide⟩, by decide, by decide,
    (at_negative_coordinate 64 (rectangular.rectangular_fill 64 2 3 (0 : Nat)) 0 0
      (by decide) (by decide)).1⟩

/-- C23: for grids `a = (ah, aw, ad)` and `b = (bh, bw, bd)`, after `a.swap(b)`
the state is `a = (height bh, width ah, contents bd)` and
`b = (height aw, width bw, contents ad)`: `a`'s width is exchanged with `b`'s
height field, `b`'s width is left as it was, and the backing contents are
exchanged. -/
theorem swap_result {α : Type} (a b : rectangular α) :
    (a.swap b).1 = { m_height := b.m_height, m_width := a.m_height, m_data := b.m_data } ∧
    (a.swap b).2 = { m_height := a.m_width, m_width := b.m_width, m_data := a.m_data } ∧
    (a.swap b).1.height = b.height ∧ (a.swap b).1.width = a.height ∧
    (a.swap b).2.height = a.width ∧ (a.swap b).2.width = b.width ∧
    (a.swap b).1.m_data = b.m_data ∧ (a.swap b).2.m_data = a.m_data :=
  ⟨rfl, rfl, rfl, rfl, rfl, rfl, rfl, rfl⟩

/-- C28: for every two grids `a` and `b` that both satisfy storage length ==
height * width, after the member `a.swap(b)` both grids satisfy it if and only
if `a`'s old height equals `b`'s old width, or `b`'s old height and `a`'s old
width are both 0. -/
theorem swap_invariant_iff {α : Type} (a b : rectangular α)
    (ha : a.size = a.height * a.width) (hb : b.size = b.height * b.width) :
    ((a.swap b).1.size = (a.swap b).1.height * (a.swap b).1.width ∧
     (a.swap b).2.size = (a.swap b).2.height * (a.swap b).2.width) ↔
    (a.height = b.width ∨ (b.height = 0 ∧ a.width = 0)) := by
  have ha1 : a.m_data.length = a.m_height * a.m_width := ha
  have hb1 : b.m_data.length = b.m_height * b.m_width := hb
  show (b.m_data.length = b.m_height * a.m_height ∧
      a.m_data.length = a.m_width * b.m_width) ↔
    (a.m_height = b.m_width ∨ (b.m_height = 0 ∧ a.m_width = 0))
  rw [ha1, hb1]
  constructor
  · rintro ⟨h1, h2⟩
    rcases Nat.eq_zero_or_pos b.m_height with hbh | hbh
    · rcases Nat.eq_zero_or_pos a.m_width with haw | haw
      · exact Or.inr ⟨hbh, haw⟩
      · left
        have h3 : a.m_width * a.m_height = a.m_width * b.m_width := by
          rw [Nat.mul_comm a.m_width a.m_height]
          exact h2
        exact Nat.eq_of_mul_eq_mul_left haw h3
    · left
      exact (Nat.eq_of_mul_eq_mul_left hbh h1).symm
  · rintro (h | ⟨h1, h2⟩)
    · rw [h]
      exact ⟨rfl, Nat.mul_comm _ _⟩
    · rw [h1, h2]
      simp

/-- C28, witness: a 2 x 3 grid swapped with a 3 x 2 grid. -/
theorem swap_invariant_iff_witness :
    ((rectangular.rectangular_fill 64 2 3 (0 : Nat)).size
        = (rectangular.rectangular_fill 64 2 3 (0 : Nat)).height
          * (rectangular.rectangular_fill 64 2 3 (0 : Nat)).width ∧
     (rectangular.rectangular_fill 64 3 2 (5 : Nat)).size
        = (rectangular.rectangular_fill 64 3 2 (5 : Nat)).height
          * (rectangular.rectangular_fill 64 3 2 (5 : Nat)).width) ∧
    ((((rectangular.rectangular_fill 64 2 3 (0 : Nat)).swap
          (rectangular.rectangular_fill 64 3 2 5)).1.size
        = ((rectangular.rectangular_fill 64 2 3 (0 : Nat)).swap
            (rectangular.rectangular_fill 64 3 2 5)).1.height
          * ((rectangular.rectangular_fill 64 2 3 (0 : Nat)).swap
            (rectangular.rectangular_fill 64 3 2 5)).1.width ∧
      ((rectangular.rectangular_fill 64 2 3 (0 : Nat)).swap
          (rectangular.rectangular_fill 64 3 2 5)).2.size
        = ((rectangular.rectangular_fill 64 2 3 (0 : Nat)).swap
            (rectangular.rectangular_fill 64 3 2 5)).2.height
          * ((rectangular.rectangular_fill 64 2 3 (0 : Nat)).swap
            (rectangular.rectangular_fill 64 3 2 5)).2.width) ↔
     ((rectangular.rectangular_fill 64 2 3 (0 : Nat)).height
        = (rectangular.rectangular_fill 64 3 2 (5 : Nat)).width ∨
      ((rectangular.rectangular_fill 64 3 2 (5 : Nat)).height = 0 ∧
       (rectangular.rectangular_fill 64 2 3 (0 : Nat)).width = 0))) :=
  ⟨⟨by decide, by decide⟩,
    swap_invariant_iff (rectangular.rectangular_fill 64 2 3 (0 : Nat))
      (rectangular.rectangular_fill 64 3 2 5) (by decide) (by decide)⟩

/-! ## Row-major layout: slots and coordinates -/

theorem slot_coordinates {h w k : Nat} (hk : k < h * w) :
    k / w < h ∧ k % w < w ∧ k / w * w + k % w = k := by
  have hwpos : 0 < w := by
    rcases Nat.eq_zero_or_pos w with h0 | hpos
    · rw [h0, Nat.mul_zero] at hk
      omega
    · exact hpos
  exact ⟨Nat.div_lt_of_lt_mul (by rw [Nat.mul_comm]; exact hk), Nat.mod_lt k hwpos,
    Nat.div_add_mod' k w⟩

theorem rectangular.at_of_slot {α : Type} {W : Nat} {g : rectangular α} {k : Nat}
    (hinv : g.m_data.length = g.m_height * g.m_width) (hrep : g.m_data.length < 2 ^ W)
    (hk : k < g.m_data.length) :
    g.at W (k / g.m_width) (k % g.m_width) = .ok k ∧
    ∃ a, g.m_data[k]? = some a ∧ g.at_value W (k / g.m_width) (k % g.m_width) = .ok a := by
  obtain ⟨hr, hc, hslot⟩ := slot_coordinates (h := g.m_height) (w := g.m_width) (k := k)
    (by rw [← hinv]; exact hk)
  have hat := rectangular.at_of_invariant hinv hrep hr hc
  obtain ⟨a, ha, hval⟩ := rectangular.at_value_of_invariant (W := W) hinv hrep hr hc
  rw [hslot] at hat ha
  exact ⟨hat, a, ha, hval⟩

/-- C24, as amended: `resize` is a flat length adjustment, not a 2-D reshape.
For every grid with storage length == height * width (a length that is a
`size_type` value) and backing sequence `d`, after `resize(nh, nw, v)` with
`nh * nw < 2 ^ W`, every coordinate `r < nh`, `c < nw` with
`r * nw + c < length(d)` has `at(r, c) == d[r * nw + c]`, the old linear
element, which is the old `at((r * nw + c) / w, (r * nw + c) % w)` for the old
width `w`. -/
theorem resize_is_flat {α : Type} (W : Nat) (g : rectangular α) (nh nw : Nat) (v : α)
    (r c : Nat)
    (hinv : g.size = g.height * g.width) (hrep : g.size < 2 ^ W)
    (hov : nh * nw < 2 ^ W)
    (hr : r < nh) (hc : c < nw) (hlt : r * nw + c < g.size) :
    ∃ a, g.m_data[r * nw + c]? = some a ∧
      (g.resize W nh nw v).at_value W r c = .ok a ∧
      g.at_value W ((r * nw + c) / g.width) ((r * nw + c) % g.width) = .ok a := by
  have hlen : (g.resize W nh nw v).m_data.length = nh * nw := by
    rw [rectangular.resize_size, size_mul_of_lt hov]
  have hinv2 : (g.resize W nh nw v).m_data.length
      = (g.resize W nh nw v).m_height * (g.resize W nh nw v).m_width := hlen
  have hrep2 : (g.resize W nh nw v).m_data.length < 2 ^ W := by
    rw [hlen]; exact hov
  have hr2 : r < (g.resize W nh nw v).m_height := hr
  have hc2 : c < (g.resize W nh nw v).m_width := hc
  obtain ⟨a2, ha2, hval2⟩ := rectangular.at_value_of_invariant (W := W) hinv2 hrep2 hr2 hc2
  have hw2 : (g.resize W nh nw v).m_width = nw := rfl
  rw [hw2] at ha2
  have hslot : r * nw + c < nh * nw := row_major_lt hr hc
  have hlt1 : r * nw + c < g.m_data.length := hlt
  have hkeep : (g.resize W nh nw v).m_data[r * nw + c]? = g.m_data[r * nw + c]? := by
    have := vector_resize_getElem?_old g.m_data (size_mul W nh nw) v
      (k := r * nw + c) (by rw [size_mul_of_lt hov]; omega)
    exact this
  obtain ⟨_, a, ha, hval⟩ := rectangular.at_of_slot (W := W) hinv hrep hlt1
  have haa : a2 = a := by
    rw [hkeep, ha] at ha2
    exact (Option.some.inj ha2).symm
  subst haa
  exact ⟨a2, ha, hval2, hval⟩

/-- C24, witness: the 1 x 6 grid "123456" resized to 2 x 3 has `at(1, 0) == '4'`,
the element that was at (0, 3). -/
theorem resize_is_flat_witness :
    ((⟨1, 6, "123456".toList⟩ : rectangular Char).size
        = (⟨1, 6, "123456".toList⟩ : rectangular Char).height
          * (⟨1, 6, "123456".toList⟩ : rectangular Char).width ∧
     (⟨1, 6, "123456".toList⟩ : rectangular Char).size < 2 ^ 64 ∧
     2 * 3 < 2 ^ 64 ∧ 1 < 2 ∧ 0 < 3 ∧
     1 * 3 + 0 < (⟨1, 6, "123456".toList⟩ : rectangular Char).size) ∧
    (((⟨1, 6, "123456".toList⟩ : rectangular Char).resize 64 2 3 default).at_value 64 1 0
        = .ok (Char.ofNat 52) ∧
     (⟨1, 6, "123456".toList⟩ : rectangular Char).at_value 64 0 3 = .ok (Char.ofNat 52)) ∧
    ∃ a, (⟨1, 6, "123456".toList⟩ : rectangular Char).m_data[1 * 3 + 0]? = some a ∧
      ((⟨1, 6, "123456".toList⟩ : rectangular Char).resize 64 2 3 default).at_value 64 1 0
        = .ok a ∧
      (⟨1, 6, "123456".toList⟩ : rectangular Char).at_value 64
        ((1 * 3 + 0) / (⟨1, 6, "123456".toList⟩ : rectangular Char).width)
        ((1 * 3 + 0) % (⟨1, 6, "123456".toList⟩ : rectangular Char).width) = .ok a :=
  ⟨⟨by decide, by decide, by decide, by decide, by decide, by decide⟩,
    ⟨by decide, by decide⟩,
    resize_is_flat 64 (⟨1, 6, "123456".toList⟩ : rectangular Char) 2 3 default 1 0
      (by decide) (by decide) (by decide) (by decide) (by decide) (by decide)⟩

/-- C24, counterexample: with a 64-bit `size_type`, the 1 x 6 grid "123456"
after `resize(2^32, 2^32, v)` has an empty backing sequence; the coordinate
(0, 0) has `0 < 2^32` twice and `0 * 2^32 + 0 < 6`, yet `at(0, 0)` reaches
outside the storage instead of yielding the old `d[0] == '1'`. -/
theorem resize_overflow_not_flat :
    (⟨1, 6, "123456".toList⟩ : rectangular Char).size
      = (⟨1, 6, "123456".toList⟩ : rectangular Char).height
        * (⟨1, 6, "123456".toList⟩ : rectangular Char).width ∧
    0 < 2 ^ 32 ∧
    0 * 2 ^ 32 + 0 < (⟨1, 6, "123456".toList⟩ : rectangular Char).size ∧
    (⟨1, 6, "123456".toList⟩ : rectangular Char).m_data[0 * 2 ^ 32 + 0]?
      = some (Char.ofNat 49) ∧
    ((⟨1, 6, "123456".toList⟩ : rectangular Char).resize 64 (2 ^ 32) (2 ^ 32)
      default).at_value 64 0 0 = .error .undefined := by
  decide

/-- C25: for every grid with storage length == height * width (as natural
numbers, the length being a `size_type` value) and every `r < height()`,
`c < width()`, the linear index computed by `at`, and the one reached by the
unchecked `operator[]` followed by a column index, is `r * width() + c` and is
strictly less than the storage length: once both bounds checks have passed
the element access stays inside the backing sequence. -/
theorem linear_index_in_storage {α : Type} (W : Nat) (g : rectangular α) (r c : Nat)
    (hinv : g.size = g.height * g.width) (hrep : g.size < 2 ^ W)
    (hr : r < g.height) (hc : c < g.width) :
    size_add W (size_mul W r g.width) c = r * g.width + c ∧
    size_add W (size_mul W r g.width) c < g.size ∧
    size_mul W r g.width + c < g.size ∧
    (∃ ref, g.at W r c = .ok ref ∧ ref < g.size) ∧
    (∃ ref, g.at_const W r c = .ok ref ∧ ref < g.size) ∧
    (∃ p ref, g.operator_index W r = .ok p ∧ g.pointer_index p c = .ok ref ∧
      ref < g.size) := by
  have hslot : r * g.m_width + c < g.m_data.length := rectangular.slot_of_invariant hinv hr hc
  have hrep1 : g.m_data.length < 2 ^ W := hrep
  have hidx : size_add W (size_mul W r g.m_width) c = r * g.m_width + c :=
    linear_index_of_lt (by omega)
  have hrow : size_mul W r g.m_width = r * g.m_width := size_mul_of_lt (by omega)
  have hat : g.at W r c = .ok (r * g.m_width + c) :=
    rectangular.at_of_invariant hinv hrep hr hc
  refine ⟨hidx, ?_, ?_, ⟨_, hat, hslot⟩, ⟨_, hat, hslot⟩, ?_⟩
  · show size_add W (size_mul W r g.m_width) c < g.m_data.length
    rw [hidx]
    exact hslot
  · show size_mul W r g.m_width + c < g.m_data.length
    rw [hrow]
    exact hslot
  · refine ⟨r * g.m_width, r * g.m_width + c, ?_, ?_, hslot⟩
    · unfold rectangular.operator_index vector_index
      rw [hrow, if_pos (by omega)]
    · unfold rectangular.pointer_index vector_index
      rw [if_pos hslot]

/-- C25, witness: coordinate (1, 2) of the 2 x 3 grid of zeros. -/
theorem linear_index_in_storage_witness :
    ((rectangular.rectangular_fill 64 2 3 (0 : Nat)).size
        = (rectangular.rectangular_fill 64 2 3 (0 : Nat)).height
          * (rectangular.rectangular_fill 64 2 3 (0 : Nat)).width ∧
     (rectangular.rectangular_fill 64 2 3 (0 : Nat)).size < 2 ^ 64 ∧
     1 < (rectangular.rectangular_fill 64 2 3 (0 : Nat)).height ∧
     2 < (rectangular.rectangular_fill 64 2 3 (0 : Nat)).width) ∧
    (size_add 64 (size_mul 64 1 (rectangular.rectangular_fill 64 2 3 (0 : Nat)).width) 2
        = 1 * (rectangular.rectangular_fill 64 2 3 (0 : Nat)).width + 2 ∧
     size_add 64 (size_mul 64 1 (rectangular.rectangular_fill 64 2 3 (0 : Nat)).width) 2
        < (rectangular.rectangular_fill 64 2 3 (0 : Nat)).size ∧
     size_mul 64 1 (rectangular.rectangular_fill 64 2 3 (0 : Nat)).width + 2
        < (rectangular.rectangular_fill 64 2 3 (0 : Nat)).size ∧
     (∃ ref, (rectangular.rectangular_fill 64 2 3 (0 : Nat)).at 64 1 2 = .ok ref ∧
        ref < (rectangular.rectangular_fill 64 2 3 (0 : Nat)).size) ∧
     (∃ ref, (rectangular.rectangular_fill 64 2 3 (0 : Nat)).at_const 64 1 2 = .ok ref ∧
        ref < (rectangular.rectangular_fill 64 2 3 (0 : Nat)).size) ∧
     (∃ p ref, (rectangular.rectangular_fill 64 2 3 (0 : Nat)).operator_index 64 1 = .ok p ∧
        (rectangular.rectangular_fill 64 2 3 (0 : Nat)).pointer_index p 2 = .ok ref ∧
        ref < (rectangular.rectangular_fill 64 2 3 (0 : Nat)).size)) :=
  ⟨⟨by decide, by decide, by decide, by decide⟩,
    linear_index_in_storage 64 (rectangular.rectangular_fill 64 2 3 (0 : Nat)) 1 2
      (by decide) (by decide) (by decide) (by decide)⟩

/-- C26: for every height `h` and width `w`, the row-major map
`(r, c) -> r * w + c` sends the in-bounds coordinates into the offsets below
`h * w`, is inverted by `k -> (k / w, k % w)` in both directions, and is
injective; on every grid of these dimensions with storage length == `h * w`
(a length that is a `size_type` value), `at(r, c)` is the reference to slot
`r * w + c`, every slot `k` is `at(k / w, k % w)`, and distinct in-bounds
coordinates are never given the same slot. -/
theorem row_major_bijection {α : Type} (W h w : Nat) :
    (∀ r c, r < h → c < w →
      r * w + c < h * w ∧ (r * w + c) / w = r ∧ (r * w + c) % w = c) ∧
    (∀ k, k < h * w → k / w < h ∧ k % w < w ∧ k / w * w + k % w = k) ∧
    (∀ r c r2 c2, r < h → c < w → r2 < h → c2 < w →
      r * w + c = r2 * w + c2 → r = r2 ∧ c = c2) ∧
    (∀ g : rectangular α, g.height = h → g.width = w → g.size = h * w → g.size < 2 ^ W →
      (∀ r c, r < h → c < w → g.at W r c = .ok (r * w + c)) ∧
      (∀ k, k < h * w → g.at W (k / w) (k % w) = .ok k) ∧
      (∀ r c r2 c2, r < h → c < w → r2 < h → c2 < w → (r, c) ≠ (r2, c2) →
        g.at W r c ≠ g.at W r2 c2)) := by
  refine ⟨?_, ?_, ?_, ?_⟩
  · intro r c hr hc
    have hwpos : 0 < w := by omega
    refine ⟨row_major_lt hr hc, ?_, ?_⟩
    · rw [Nat.add_comm, Nat.add_mul_div_right c r hwpos, Nat.div_eq_of_lt hc]
      omega
    · rw [Nat.add_comm, Nat.add_mul_mod_self_right]
      exact Nat.mod_eq_of_lt hc
  · intro k hk
    exact slot_coordinates hk
  · intro r c r2 c2 _ hc _ hc2 heq
    exact row_major_inj hc hc2 heq
  · intro g hgh hgw hgs hrep
    have hh : g.m_height = h := hgh
    have hw : g.m_width = w := hgw
    have hinv : g.m_data.length = g.m_height * g.m_width := by
      rw [hh, hw]; exact hgs
    have hrep1 : g.m_data.length < 2 ^ W := hrep
    have hat : ∀ r c, r < h → c < w → g.at W r c = .ok (r * w + c) := by
      intro r c hr hc
      have := rectangular.at_of_invariant (W := W) (g := g) (r := r) (c := c)
        hinv hrep1 (by rw [hh]; exact hr) (by rw [hw]; exact hc)
      rw [hw] at this
      exact this
    refine ⟨hat, ?_, ?_⟩
    · intro k hk
      have := (rectangular.at_of_slot (W := W) (g := g) (k := k) hinv hrep1
        (by rw [hinv, hh, hw]; exact hk)).1
      rw [hw] at this
      exact this
    · intro r c r2 c2 hr hc hr2 hc2 hne heq
      rw [hat r c hr hc, hat r2 c2 hr2 hc2] at heq
      have hslots : r * w + c = r2 * w + c2 := Except.ok.inj heq
      have := row_major_inj hc hc2 hslots
      exact hne (by rw [this.1, this.2])

/-- C26, witness: the row-major map on the 2 x 3 grid holding 10..15. -/
theorem row_major_bijection_witness :
    ((⟨2, 3, [10, 11, 12, 13, 14, 15]⟩ : rectangular Nat).height = 2 ∧
     (⟨2, 3, [10, 11, 12, 13, 14, 15]⟩ : rectangular Nat).width = 3 ∧
     (⟨2, 3, [10, 11, 12, 13, 14, 15]⟩ : rectangular Nat).size = 2 * 3 ∧
     (⟨2, 3, [10, 11, 12, 13, 14, 15]⟩ : rectangular Nat).size < 2 ^ 64 ∧
     4 < 2 * 3) ∧
    (⟨2, 3, [10, 11, 12, 13, 14, 15]⟩ : rectangular Nat).at 64 (4 / 3) (4 % 3) = .ok 4 :=
  ⟨⟨by decide, by decide, by decide, by decide, by decide⟩,
    ((row_major_bijection (α := Nat) 64 2 3).2.2.2 ⟨2, 3, [10, 11, 12, 13, 14, 15]⟩
      (by decide) (by decide) (by decide) (by decide)).2.1 4 (by decide)⟩

/-! ## Overflow of `height * width` -/

theorem rectangular.at_past_storage {α : Type} {W : Nat} {g : rectangular α}
    (hshort : g.m_data.length < g.m_height * g.m_width) (hrep : g.m_data.length < 2 ^ W) :
    ∃ r c, r < g.m_height ∧ c < g.m_width ∧ r * g.m_width + c = g.m_data.length ∧
      size_add W (size_mul W r g.m_width) c = g.m_data.length ∧
      g.at W r c = .error .undefined := by
  obtain ⟨hr, hc, hslot⟩ := slot_coordinates hshort
  have hidx : size_add W (size_mul W (g.m_data.length / g.m_width) g.m_width)
      (g.m_data.length % g.m_width) = g.m_data.length := by
    rw [linear_index_of_lt (by rw [hslot]; exact hrep), hslot]
  refine ⟨g.m_data.length / g.m_width, g.m_data.length % g.m_width, hr, hc, hslot, hidx, ?_⟩
  unfold rectangular.at vector_index
  rw [if_neg (by omega), if_neg (by omega), hidx, if_neg (Nat.lt_irrefl _)]

/-- C27: the constructors and `resize` store `height` and `width` as given
and size the vector with `height * width` computed in `size_type`.  For every
`h`, `w` whose true product is at least `2 ^ W`, the grid built by
`rectangular(h, w, v)`, and any grid after `resize(h, w, v)`, has
`size() == (h * w) mod 2 ^ W`, which is not `h * w`, and has a coordinate
`(r, c)` with `r < height()` and `c < width()` that passes both checks of `at`
while its linear index `r * width() + c` equals the storage length, so the
access falls outside the storage; the range and vector constructors, when they
succeed, give the same size.  Such dimensions exist among the `size_type`
values: for even `W >= 2`, `h == w == 2 ^ (W / 2)`. -/
theorem overflow_wraps_storage {α : Type} (W h w : Nat) (v : α) (g0 : rectangular α)
    (hov : 2 ^ W ≤ h * w) :
    ((rectangular.rectangular_fill W h w v).height = h ∧
     (rectangular.rectangular_fill W h w v).width = w ∧
     (rectangular.rectangular_fill W h w v).size = (h * w) % 2 ^ W ∧
     (rectangular.rectangular_fill W h w v).size ≠ h * w ∧
     ∃ r c, r < (rectangular.rectangular_fill W h w v).height ∧
       c < (rectangular.rectangular_fill W h w v).width ∧
       r * (rectangular.rectangular_fill W h w v).width + c
         = (rectangular.rectangular_fill W h w v).size ∧
       (rectangular.rectangular_fill W h w v).at W r c = .error .undefined) ∧
    ((g0.resize W h w v).height = h ∧ (g0.resize W h w v).width = w ∧
     (g0.resize W h w v).size = (h * w) % 2 ^ W ∧
     (g0.resize W h w v).size ≠ h * w ∧
     ∃ r c, r < (g0.resize W h w v).height ∧ c < (g0.resize W h w v).width ∧
       r * (g0.resize W h w v).width + c = (g0.resize W h w v).size ∧
       (g0.resize W h w v).at W r c = .error .undefined) ∧
    (∀ (lim : vector_limits) (s : List α) (g : rectangular α),
      rectangular.rectangular_range W lim h w s = .ok g →
      g.height = h ∧ g.width = w ∧ g.size = (h * w) % 2 ^ W ∧ g.size ≠ h * w) ∧
    (∀ (vec : List α) (g : rectangular α),
      (rectangular.rectangular_vector W h w vec).1 = .ok g →
      g.height = h ∧ g.width = w ∧ g.size = (h * w) % 2 ^ W ∧ g.size ≠ h * w) ∧
    (∀ m, 1 ≤ m → W = 2 * m →
      2 ^ (W / 2) < 2 ^ W ∧ 2 ^ W ≤ 2 ^ (W / 2) * 2 ^ (W / 2)) := by
  have hpos : 0 < 2 ^ W := Nat.two_pow_pos W
  have hmod : (h * w) % 2 ^ W < 2 ^ W := Nat.mod_lt _ hpos
  have hne : (h * w) % 2 ^ W ≠ h * w := by omega
  have hfill : (rectangular.rectangular_fill W h w v).m_data.length = (h * w) % 2 ^ W := by
    simp [rectangular.rectangular_fill, size_mul]
  have hres : (g0.resize W h w v).m_data.length = (h * w) % 2 ^ W :=
    rectangular.resize_size W g0 h w v
  refine ⟨⟨rfl, rfl, hfill, ?_, ?_⟩, ⟨rfl, rfl, hres, ?_, ?_⟩, ?_, ?_, ?_⟩
  · show (rectangular.rectangular_fill W h w v).m_data.length ≠ h * w
    rw [hfill]; exact hne
  · obtain ⟨r, c, hr, hc, hslot, _, hat⟩ :=
      rectangular.at_past_storage (W := W) (g := rectangular.rectangular_fill W h w v)
        (by rw [hfill]; show (h * w) % 2 ^ W < h * w; omega) (by rw [hfill]; exact hmod)
    exact ⟨r, c, hr, hc, hslot, hat⟩
  · show (g0.resize W h w v).m_data.length ≠ h * w
    rw [hres]; exact hne
  · obtain ⟨r, c, hr, hc, hslot, _, hat⟩ :=
      rectangular.at_past_storage (W := W) (g := g0.resize W h w v)
        (by rw [hres]; show (h * w) % 2 ^ W < h * w; omega) (by rw [hres]; exact hmod)
    exact ⟨r, c, hr, hc, hslot, hat⟩
  · intro lim s g hg
    obtain ⟨hgeq, hlen⟩ := rectangular.range_ok_data hg
    subst hgeq
    have hlen2 : s.length = (h * w) % 2 ^ W := hlen
    exact ⟨rfl, rfl, hlen2, by show s.length ≠ h * w; omega⟩
  · intro vec g hg
    obtain ⟨hgeq, hlen⟩ := rectangular.vector_ok_data hg
    subst hgeq
    have hlen2 : vec.length = (h * w) % 2 ^ W := hlen
    exact ⟨rfl, rfl, hlen2, by show vec.length ≠ h * w; omega⟩
  · intro m hm hW
    subst hW
    have hdiv : 2 * m / 2 = m := by omega
    rw [hdiv]
    constructor
    · exact Nat.pow_lt_pow_right (by omega) (by omega)
    · rw [← Nat.pow_add]
      have : m + m = 2 * m := by omega
      rw [this]

/-- C27, witness: 64-bit `size_type`, `height == width == 2^32 == 2^(64/2)`:
the grid has `size() == 0` and `at(0, 0)` passes both checks with linear
index 0, which is not below the storage length 0. -/
theorem overflow_wraps_storage_witness :
    (2 ^ 64 ≤ 2 ^ 32 * 2 ^ 32 ∧ 2 ^ 32 < 2 ^ 64 ∧ 2 ^ (64 / 2) = 2 ^ 32) ∧
    ((rectangular.rectangular_fill 64 (2 ^ 32) (2 ^ 32) (7 : Nat)).size = 0 ∧
     (rectangular.rectangular_fill 64 (2 ^ 32) (2 ^ 32) (7 : Nat)).at 64 0 0
       = .error .undefined ∧
     ¬ (0 * (rectangular.rectangular_fill 64 (2 ^ 32) (2 ^ 32) (7 : Nat)).width + 0
       < (rectangular.rectangular_fill 64 (2 ^ 32) (2 ^ 32) (7 : Nat)).size)) ∧
    ((rectangular.rectangular_fill 64 (2 ^ 32) (2 ^ 32) (7 : Nat)).height = 2 ^ 32 ∧
     (rectangular.rectangular_fill 64 (2 ^ 32) (2 ^ 32) (7 : Nat)).width = 2 ^ 32 ∧
     (rectangular.rectangular_fill 64 (2 ^ 32) (2 ^ 32) (7 : Nat)).size
       = (2 ^ 32 * 2 ^ 32) % 2 ^ 64 ∧
     (rectangular.rectangular_fill 64 (2 ^ 32) (2 ^ 32) (7 : Nat)).size ≠ 2 ^ 32 * 2 ^ 32 ∧
     ∃ r c, r < (rectangular.rectangular_fill 64 (2 ^ 32) (2 ^ 32) (7 : Nat)).height ∧
       c < (rectangular.rectangular_fill 64 (2 ^ 32) (2 ^ 32) (7 : Nat)).width ∧
       r * (rectangular.rectangular_fill 64 (2 ^ 32) (2 ^ 32) (7 : Nat)).width + c
         = (rectangular.rectangular_fill 64 (2 ^ 32) (2 ^ 32) (7 : Nat)).size ∧
       (rectangular.rectangular_fill 64 (2 ^ 32) (2 ^ 32) (7 : Nat)).at 64 r c
         = .error .undefined) :=
  ⟨⟨by decide, by decide, by decide⟩, ⟨by decide, by decide, by decide⟩,
    (overflow_wraps_storage 64 (2 ^ 32) (2 ^ 32) (7 : Nat)
      (rectangular.rectangular_default) (by decide)).1⟩

end gnb
